import Mathlib

/-! Doctor worklist table: a shallow embedding.

Sources: `client/src/components/common/WorklistTable/doctorWorklistTable.jsx` and, for the
login submission, `client/src/pages/Login.jsx`.

The component is JavaScript, so records are duck-typed.  The embedding keeps that:
a study is a bag of named JavaScript values, and every helper of the source is a
function over `JSValue`.  Only the fragment of the language the source uses is
modelled:

* numbers are the integer-valued Number values plus `NaN`, printed as Number::toString
  prints them (digits up to `2^53`, the shortest decimal that reads back above it, exponent
  form from `1e21` on);
* objects are plain data objects (an ordered list of own properties); the keys the
  source reads are data keys, none of them lives on a prototype;
* strings are sequences of Unicode characters, so `charAt(0)` is the first character
  (this agrees with JavaScript whenever that character is in the basic plane);
* a promise is represented by the way it settles (`Completion`).
-/

namespace Worklist

/-! ## JavaScript values -/

mutual
/-- JavaScript values that can occur in a study record or be thrown. -/
inductive JSValue where
  | undefined
  | null
  | bool (b : Bool)
  | nan
  | num (n : Int)
  | str (s : String)
  | obj (fields : JSProps)
  | arr (items : JSItems)
/-- Own properties of a plain object, in insertion order. -/
inductive JSProps where
  | nil
  | cons (key : String) (value : JSValue) (rest : JSProps)
/-- Elements of an array. -/
inductive JSItems where
  | nil
  | cons (head : JSValue) (rest : JSItems)
end

/-- Build the property list of an object literal. -/
def JSProps.ofList : List (String × JSValue) → JSProps
  | [] => .nil
  | (k, v) :: rest => .cons k v (JSProps.ofList rest)

/-- Own-property lookup: `o[key]`, `undefined` when the key is absent. -/
def JSProps.get : JSProps → String → JSValue
  | .nil, _ => .undefined
  | .cons k v rest, key => if k = key then v else rest.get key

/-- Number of elements of an array. -/
def JSItems.length : JSItems → Nat
  | .nil => 0
  | .cons _ rest => rest.length + 1

/-- A study record: the own properties of the object handed to a row. -/
abbrev Study := JSProps

namespace JSValue

/-- ToBoolean: the values for which `!v` is `false`. -/
def truthy : JSValue → Bool
  | undefined => false
  | null => false
  | bool b => b
  | nan => false
  | num n => n != 0
  | str s => s != ""
  | obj _ => true
  | arr _ => true

/-- The `typeof` operator. -/
def typeOf : JSValue → String
  | undefined => "undefined"
  | null => "object"
  | bool _ => "boolean"
  | nan => "number"
  | num _ => "number"
  | str _ => "string"
  | obj _ => "object"
  | arr _ => "object"

/-- Strict equality with a string literal: `v === lit`. -/
def strictEqStr : JSValue → String → Bool
  | str s, lit => s == lit
  | _, _ => false

/-- Strict equality with `null`: `v === null`. -/
def isNull : JSValue → Bool
  | null => true
  | _ => false

/-- The `||` operator: `a || b`. -/
def orElse (a b : JSValue) : JSValue := if a.truthy then a else b

/-- The `&&` operator: `a && b`. -/
def andAlso (a b : JSValue) : JSValue := if a.truthy then b else a

end JSValue

/-! ## Printing a number -/

/-- Number of decimal digits of a natural number. -/
def decimalLength (a : Nat) : Nat := (Nat.toDigits 10 a).length

/-- Test that the decimal integer `c` reads back as the integer Number `a`, for `a` above
`2^53`: `c` lies in the rounding interval of `a`, bounds included when the significand of
`a` is even. With `a = m * 2^e` and `2^52 ≤ m < 2^53`, the interval reaches half a step
`2^e` on each side (a quarter below when `m = 2^52`); everything is taken four times so as
to stay among integers. -/
def readsBackAs (a c : Nat) : Bool :=
  let e := (Nat.toDigits 2 a).length - 53
  let m := a / 2 ^ e
  let low := if m = 2 ^ 52 then 4 * a - 2 ^ e else 4 * a - 2 * 2 ^ e
  let high := 4 * a + 2 * 2 ^ e
  if m % 2 = 0 then decide (low ≤ 4 * c) && decide (4 * c ≤ high)
  else decide (low < 4 * c) && decide (4 * c < high)

/-- The decimal with `k` significant digits that reads back as `a`, the nearer to `a` if
both neighbours do (the even one on a tie). -/
def shortestWith (a k : Nat) : Option Nat :=
  let p := decimalLength a - k
  let down := a / 10 ^ p * 10 ^ p
  let up := down + 10 ^ p
  match readsBackAs a down, readsBackAs a up with
  | true, true =>
    if a - down < up - a then some down
    else if up - a < a - down then some up
    else if (a / 10 ^ p) % 2 = 0 then some down else some up
  | true, false => some down
  | false, true => some up
  | false, false => none

/-- The decimal with the fewest significant digits that reads back as `a`. -/
def shortestDecimal (a : Nat) : Nat :=
  ((List.range (decimalLength a)).findSome? (fun i => shortestWith a (i + 1))).getD a

/-- Number::toString (radix 10) for an integer Number: all the digits up to `2^53`; above
it the shortest decimal that reads back, written out in full below `1e21` and in exponent
form from there on. -/
def numberToString (n : Int) : String :=
  if n.natAbs ≤ 9007199254740992 then toString n
  else
    let c := shortestDecimal n.natAbs
    let sign := if n < 0 then "-" else ""
    if decimalLength c ≤ 21 then sign ++ toString c
    else
      match ((Nat.toDigits 10 c).reverse.dropWhile (fun d => d == '0')).reverse with
      | [] => sign ++ toString c
      | [d] => sign ++ String.mk [d] ++ "e+" ++ toString (decimalLength c - 1)
      | d :: rest =>
        sign ++ String.mk (d :: '.' :: rest) ++ "e+" ++ toString (decimalLength c - 1)

mutual
/-- ToString on the modelled values (`String(v)`, template-literal interpolation). -/
def JSValue.toStr : JSValue → String
  | .undefined => "undefined"
  | .null => "null"
  | .bool true => "true"
  | .bool false => "false"
  | .nan => "NaN"
  | .num n => numberToString n
  | .str s => s
  | .obj _ => "[object Object]"
  | .arr items => items.joinStr
/-- `Array.prototype.join(",")`: `null` and `undefined` elements print as empty. -/
def JSItems.joinStr : JSItems → String
  | .nil => ""
  | .cons .undefined .nil => ""
  | .cons .null .nil => ""
  | .cons x .nil => x.toStr
  | .cons .undefined rest => "," ++ rest.joinStr
  | .cons .null rest => "," ++ rest.joinStr
  | .cons x rest => x.toStr ++ "," ++ rest.joinStr
end

/-- The error object of a `TypeError`. -/
def typeError (message : String) : JSValue :=
  .obj (.ofList [("name", .str "TypeError"), ("message", .str message)])

/-- Property read `v.key`: throws a `TypeError` on `null` and `undefined`. -/
def JSValue.getProp : JSValue → String → Except JSValue JSValue
  | .undefined, key => .error (typeError ("Cannot read properties of undefined (reading " ++ key ++ ")"))
  | .null, key => .error (typeError ("Cannot read properties of null (reading " ++ key ++ ")"))
  | .obj fields, key => .ok (fields.get key)
  | .arr items, key => .ok (if key = "length" then .num items.length else .undefined)
  | .str s, key => .ok (if key = "length" then .num s.length else .undefined)
  | _, _ => .ok .undefined

/-- Optional chaining `v?.key`: `undefined` when `v` is `null` or `undefined`. -/
def JSValue.getPropOpt (v : JSValue) (key : String) : JSValue :=
  match v with
  | .obj fields => fields.get key
  | .arr items => if key = "length" then .num items.length else .undefined
  | .str s => if key = "length" then .num s.length else .undefined
  | _ => .undefined

/-! ## Status palette and labels (source lines 14-48) -/

/-- The neutral style of the `default` branch of `getStatusColor`. -/
def defaultStatusColor : String := "bg-gray-100 text-gray-700 border border-gray-200"

/-- Translation of `getStatusColor`: a `switch`, that is a chain of `===` tests in case order. -/
def getStatusColor (status : JSValue) : String :=
  if status.strictEqStr "new_study_received" then
    "bg-blue-100 text-blue-700 border border-blue-200"
  else if status.strictEqStr "pending_assignment" then
    "bg-yellow-100 text-yellow-700 border border-yellow-200"
  else if status.strictEqStr "assigned_to_doctor" then
    "bg-purple-100 text-purple-700 border border-purple-200"
  else if status.strictEqStr "doctor_opened_report" then
    "bg-indigo-100 text-indigo-700 border border-indigo-200"
  else if status.strictEqStr "report_in_progress" then
    "bg-cyan-100 text-cyan-700 border border-cyan-200"
  else if status.strictEqStr "report_drafted" then
    "bg-teal-100 text-teal-700 border border-teal-200"
  else if status.strictEqStr "report_finalized" then
    "bg-emerald-100 text-emerald-700 border border-emerald-200"
  else if status.strictEqStr "final_report_downloaded" then
    "bg-green-100 text-green-700 border border-green-200"
  else if status.strictEqStr "verification_in_progress" then
    "bg-orange-100 text-orange-700 border border-orange-200"
  else if status.strictEqStr "report_verified" then
    "bg-green-100 text-green-700 border border-green-200"
  else if status.strictEqStr "report_rejected" then
    "bg-rose-100 text-rose-700 border border-rose-200"
  else if status.strictEqStr "archived" then
    "bg-slate-100 text-slate-700 border border-slate-200"
  else "bg-gray-100 text-gray-700 border border-gray-200"

/-- Translation of `formatWorkflowStatus`; the `default` branch is `status || 'Unknown'`. -/
def formatWorkflowStatus (status : JSValue) : JSValue :=
  if status.strictEqStr "new_study_received" then .str "New"
  else if status.strictEqStr "pending_assignment" then .str "Pending"
  else if status.strictEqStr "assigned_to_doctor" then .str "Assigned"
  else if status.strictEqStr "doctor_opened_report" then .str "Opened"
  else if status.strictEqStr "report_in_progress" then .str "In Progress"
  else if status.strictEqStr "report_drafted" then .str "Drafted"
  else if status.strictEqStr "report_finalized" then .str "Finalized"
  else if status.strictEqStr "final_report_downloaded" then .str "Downloaded"
  else if status.strictEqStr "verification_in_progress" then .str "Verifying"
  else if status.strictEqStr "report_verified" then .str "Verified"
  else if status.strictEqStr "report_rejected" then .str "Rejected"
  else if status.strictEqStr "archived" then .str "Archived"
  else status.orElse (.str "Unknown")

/-- The twelve workflow statuses that have a `case` in both switches. -/
def recognisedStatuses : List String :=
  ["new_study_received", "pending_assignment", "assigned_to_doctor", "doctor_opened_report",
   "report_in_progress", "report_drafted", "report_finalized", "final_report_downloaded",
   "verification_in_progress", "report_verified", "report_rejected", "archived"]


/-! ## Dates (the part of the `Date` built-in that `formatDate` and `formatTime` use) -/

/-- The host's share of `Date`: the string parser (`none` is `NaN`; outside the ISO format the
language leaves it to the implementation) and the local time-zone adjustment in milliseconds. -/
structure DateHost where
  parse : String → Option Int
  localTZA : Int → Int

/-- Milliseconds in a day. -/
def msPerDay : Int := 86400000

/-- TimeClip: a time value further than 8.64e15 ms from the epoch is `NaN`. -/
def timeClip (t : Int) : Option Int :=
  if t.natAbs ≤ 8640000000000000 then some t else none

/-- The time value of `new Date(value)`; `none` is the `NaN` of an Invalid Date.
A string is parsed, every other primitive goes through ToNumber, an object through its
string form. -/
def newDate (host : DateHost) (value : JSValue) : Option Int :=
  match value with
  | .str s => (host.parse s).bind timeClip
  | .num n => timeClip n
  | .bool b => some (if b then 1 else 0)
  | .null => some 0
  | .undefined => none
  | .nan => none
  | .obj _ => (host.parse "[object Object]").bind timeClip
  | .arr items => (host.parse items.joinStr).bind timeClip

/-- A calendar date: year, month 1-12, day of month. -/
structure Civil where
  year : Int
  month : Int
  day : Int
  deriving DecidableEq, Repr

/-- Calendar date of a day number (days since 1970-01-01, proleptic Gregorian). -/
def civilFromDays (days : Int) : Civil :=
  let z := days + 719468
  let era := z / 146097
  let doe := z - era * 146097
  let yoe := (doe - doe / 1460 + doe / 36524 - doe / 146096) / 365
  let doy := doe - (365 * yoe + yoe / 4 - yoe / 100)
  let mp := (5 * doy + 2) / 153
  let d := doy - (153 * mp + 2) / 5 + 1
  let m := if mp < 10 then mp + 3 else mp - 9
  let y := yoe + era * 400
  ⟨if m ≤ 2 then y + 1 else y, m, d⟩

/-- Day number of a calendar date, the inverse of `civilFromDays`. -/
def daysFromCivil (year month day : Int) : Int :=
  let y := if month ≤ 2 then year - 1 else year
  let era := y / 400
  let yoe := y - era * 400
  let mp := if month > 2 then month - 3 else month + 9
  let doy := (153 * mp + 2) / 5 + day - 1
  let doe := yoe * 365 + yoe / 4 - yoe / 100 + doy
  era * 146097 + doe - 719468

/-- The adjustment of a time zone is less than a day in either direction; a host value
outside that range is cut to it. -/
def clampOffset (offset : Int) : Int :=
  if offset ≤ -86400000 then -86399999
  else if 86400000 ≤ offset then 86399999
  else offset

/-- LocalTime(t): the time value shifted to the host's zone. -/
def localTime (host : DateHost) (t : Int) : Int := t + clampOffset (host.localTZA t)

/-- `date.getDate()`: local day of month, `NaN` on an Invalid Date. -/
def getDate (host : DateHost) (date : Option Int) : JSValue :=
  match date with
  | none => .nan
  | some t => .num (civilFromDays (localTime host t / msPerDay)).day

/-- `date.getMonth()`: local month 0-11, `NaN` on an Invalid Date. -/
def getMonth (host : DateHost) (date : Option Int) : JSValue :=
  match date with
  | none => .nan
  | some t => .num ((civilFromDays (localTime host t / msPerDay)).month - 1)

/-- `date.getFullYear()`: local year, `NaN` on an Invalid Date. -/
def getFullYear (host : DateHost) (date : Option Int) : JSValue :=
  match date with
  | none => .nan
  | some t => .num (civilFromDays (localTime host t / msPerDay)).year

/-- `date.getHours()`: local hour 0-23, `NaN` on an Invalid Date. -/
def getHours (host : DateHost) (date : Option Int) : JSValue :=
  match date with
  | none => .nan
  | some t => .num (localTime host t / 3600000 % 24)

/-- `date.getMinutes()`: local minute 0-59, `NaN` on an Invalid Date. -/
def getMinutes (host : DateHost) (date : Option Int) : JSValue :=
  match date with
  | none => .nan
  | some t => .num (localTime host t / 60000 % 60)

/-- `date.getSeconds()`: local second 0-59, `NaN` on an Invalid Date. -/
def getSeconds (host : DateHost) (date : Option Int) : JSValue :=
  match date with
  | none => .nan
  | some t => .num (localTime host t / 1000 % 60)

/-- Numeric `v + k` for a number `v` (`NaN + k` is `NaN`). -/
def JSValue.plus (v : JSValue) (k : Int) : JSValue :=
  match v with
  | .num n => .num (n + k)
  | _ => .nan

/-- `s.padStart(targetLength, fill)`. -/
def padStart (s : String) (targetLength : Nat) (fill : String) : String :=
  if targetLength ≤ s.length ∨ fill = "" then s
  else
    let need := targetLength - s.length
    String.mk ((List.replicate need fill.data).flatten.take need) ++ s

/-- Translation of `formatDate` (source lines 50-61).  The body of the `try` is evaluated in
`Except`; the `catch` turns a thrown value into the dash. -/
def formatDate (host : DateHost) (dateString : JSValue) : String :=
  if !dateString.truthy then "-"
  else
    let body : Except JSValue String := do
      let date ← pure (newDate host dateString)
      let day := padStart (getDate host date).toStr 2 "0"
      let month := padStart ((getMonth host date).plus 1).toStr 2 "0"
      let year := getFullYear host date
      pure (day ++ "/" ++ month ++ "/" ++ year.toStr)
    match body with
    | .ok s => s
    | .error _ => "-"

/-- Translation of `formatTime` (source lines 63-74). -/
def formatTime (host : DateHost) (dateString : JSValue) : String :=
  if !dateString.truthy then "-"
  else
    let body : Except JSValue String := do
      let date ← pure (newDate host dateString)
      let hours := padStart (getHours host date).toStr 2 "0"
      let minutes := padStart (getMinutes host date).toStr 2 "0"
      let seconds := padStart (getSeconds host date).toStr 2 "0"
      pure (hours ++ ":" ++ minutes ++ ":" ++ seconds)
    match body with
    | .ok s => s
    | .error _ => "-"

/-- Value of a run of decimal digits, `none` if a character is not a digit. -/
def digitsValue (cs : List Char) : Option Nat :=
  cs.foldl (fun acc c => acc.bind (fun n => if c.isDigit then some (n * 10 + (c.toNat - 48)) else none))
    (some 0)

/-- Number of days of a month in a year. -/
def daysInMonth (year month : Nat) : Nat :=
  if month = 2 then
    if year % 4 = 0 ∧ (year % 100 ≠ 0 ∨ year % 400 = 0) then 29 else 28
  else if month = 4 ∨ month = 6 ∨ month = 9 ∨ month = 11 then 30
  else 31

/-- Day number of the date `YYYY-MM-DD` given as ten characters. -/
def isoDays (cs : List Char) : Option Int :=
  if cs.length = 10 ∧ cs.get? 4 = some '-' ∧ cs.get? 7 = some '-' then
    match digitsValue (cs.take 4), digitsValue ((cs.drop 5).take 2), digitsValue (cs.drop 8) with
    | some y, some m, some d =>
      if 1 ≤ m ∧ m ≤ 12 ∧ 1 ≤ d ∧ d ≤ daysInMonth y m then some (daysFromCivil y m d) else none
    | _, _, _ => none
  else none

/-- Milliseconds of the time of day `HH:mm:ss` given as eight characters. -/
def isoClock (cs : List Char) : Option Int :=
  if cs.length = 8 ∧ cs.get? 2 = some ':' ∧ cs.get? 5 = some ':' then
    match digitsValue (cs.take 2), digitsValue ((cs.drop 3).take 2), digitsValue (cs.drop 6) with
    | some h, some m, some s =>
      if h ≤ 23 ∧ m ≤ 59 ∧ s ≤ 59 then some (((h * 60 + m) * 60 + s) * 1000 : Nat) else none
    | _, _, _ => none
  else none

/-- The standard part of `Date.parse`: `YYYY-MM-DD` and `YYYY-MM-DDTHH:mm:ssZ`, both UTC.
Every other string is rejected, as a host does with text that is no date at all. -/
def isoParse (s : String) : Option Int :=
  let cs := s.data
  if cs.length = 10 then (isoDays cs).map (fun d => d * msPerDay)
  else if cs.length = 20 ∧ cs.get? 10 = some 'T' ∧ cs.get? 19 = some 'Z' then
    match isoDays (cs.take 10), isoClock ((cs.drop 11).take 8) with
    | some d, some ms => some (d * msPerDay + ms)
    | _, _ => none
  else none

/-- A host that parses the ISO format and whose local zone is `offsetMinutes` east of UTC. -/
def isoHost (offsetMinutes : Int) : DateHost :=
  ⟨isoParse, fun _ => offsetMinutes * 60000⟩

/-! ## Rendering a value as the child of an element -/

/-- The error React raises for an object used as a child. -/
def invalidChildError : JSValue :=
  .obj (.ofList [("name", .str "Error"), ("message", .str "Objects are not valid as a React child")])

mutual
/-- Text that React puts in the page for the child `v`: nothing for `undefined`, `null` and
booleans, the text of a string or number, the children of an array in order; a plain
object is refused. -/
def renderChild : JSValue → Except JSValue String
  | .undefined => .ok ""
  | .null => .ok ""
  | .bool _ => .ok ""
  | .nan => .ok "NaN"
  | .num n => .ok (numberToString n)
  | .str s => .ok s
  | .obj _ => .error invalidChildError
  | .arr items => renderChildren items
/-- Text of a list of children, concatenated. -/
def renderChildren : JSItems → Except JSValue String
  | .nil => .ok ""
  | .cons x rest =>
    match renderChild x, renderChildren rest with
    | .ok a, .ok b => .ok (a ++ b)
    | .error e, _ => .error e
    | .ok _, .error e => .error e
end

/-! ## Row presenter: derived values of `StudyRow` (source lines 244-553) -/

/-- Source line 262: `study.priority === 'URGENT' || study.priority === 'EMERGENCY'`. -/
def isUrgent (study : Study) : Bool :=
  (study.get "priority").strictEqStr "URGENT" || (study.get "priority").strictEqStr "EMERGENCY"

/-- Source line 265: `study.workflowStatus === 'report_rejected'`. -/
def isRejected (study : Study) : Bool :=
  (study.get "workflowStatus").strictEqStr "report_rejected"

/-- Source line 266: `study.reportInfo?.verificationInfo?.rejectionReason || '-'`. -/
def rejectionReason (study : Study) : JSValue :=
  (((study.get "reportInfo").getPropOpt "verificationInfo").getPropOpt "rejectionReason").orElse
    (.str "-")

/-- Method call `v.charAt(0)` on a value already known to be truthy: the first character of
a string; any other value has no such method. -/
def charAt0 (v : JSValue) : Except JSValue String :=
  match v with
  | .str s =>
    match s.data with
    | [] => .ok ""
    | c :: _ => .ok (String.singleton c)
  | _ => .error (typeError "study.patientSex.charAt is not a function")

/-- The child expression of the AGE/SEX cell (source lines 364-366). -/
def ageSexValue (study : Study) : Except JSValue JSValue :=
  if !(study.get "ageGender").strictEqStr "N/A" then .ok (study.get "ageGender")
  else if ((study.get "patientAge").andAlso (study.get "patientSex")).truthy then
    match charAt0 (study.get "patientSex") with
    | .ok c => .ok (.str ((study.get "patientAge").toStr ++ "/" ++ c))
    | .error e => .error e
  else .ok (.str "-")

/-- Text shown by the AGE/SEX cell. -/
def ageSexCell (study : Study) : Except JSValue String :=
  match ageSexValue study with
  | .ok v => renderChild v
  | .error e => .error e

/-- The child expression of the CLINICAL HISTORY cell (source lines 444-446). -/
def clinicalHistoryValue (study : Study) : Except JSValue JSValue :=
  let ch := study.get "clinicalHistory"
  if ch.typeOf == "object" && !ch.isNull then
    match ch.getProp "clinicalHistory" with
    | .ok inner => .ok (inner.orElse (.str "-"))
    | .error e => .error e
  else .ok (ch.orElse (.str "-"))

/-- Text shown by the CLINICAL HISTORY cell. -/
def clinicalHistoryCell (study : Study) : Except JSValue String :=
  match clinicalHistoryValue study with
  | .ok v => renderChild v
  | .error e => .error e

/-- Content of the REJECTION REASON cell: either the marker icon with a text block
(tooltip `title`, visible `text`), or the centred dash. -/
inductive RejectionCell where
  | reason (title : JSValue) (text : String)
  | dash

/-- The visible text of a rejection cell. -/
def RejectionCell.text : RejectionCell → String
  | .reason _ text => text
  | .dash => "-"

/-- The REJECTION REASON cell (source lines 498-517): for a rejected study the text block
has `title={rejectionReason}` and child `study.verificationNotes`. -/
def rejectionReasonCell (study : Study) : Except JSValue RejectionCell :=
  if isRejected study then
    match renderChild (study.get "verificationNotes") with
    | .ok text => .ok (.reason (rejectionReason study) text)
    | .error e => .error e
  else .ok .dash

/-! ## Table controller: `DoctorWorklistTable` (source lines 556-725) -/

/-- State of the detailed-view modal (source line 573); `shown` is the source's `show`
field, a reserved word here. -/
structure DetailedViewState where
  shown : Bool
  studyId : JSValue

/-- State of the report modal (source line 574). -/
structure ReportModalState where
  shown : Bool
  studyId : JSValue
  studyData : JSValue

/-- State of the study-notes modal (source line 575). -/
structure StudyNotesState where
  shown : Bool
  studyId : JSValue

/-- State of the patient-edit modal (source line 576). -/
structure PatientEditModalState where
  shown : Bool
  study : JSValue

/-- State of the timeline modal (source line 577). -/
structure TimelineModalState where
  shown : Bool
  studyId : JSValue
  studyData : JSValue

/-- The five `useState` cells of the controller. -/
structure ControllerState where
  detailedView : DetailedViewState
  reportModal : ReportModalState
  studyNotes : StudyNotesState
  patientEditModal : PatientEditModalState
  timelineModal : TimelineModalState

/-- The initial values of the five `useState` cells (source lines 573-577). -/
def ControllerState.initial : ControllerState :=
  { detailedView := ⟨false, .null⟩
    reportModal := ⟨false, .null, .null⟩
    studyNotes := ⟨false, .null⟩
    patientEditModal := ⟨false, .null⟩
    timelineModal := ⟨false, .null, .null⟩ }

/-- The `pagination` prop. -/
structure Pagination where
  currentPage : JSValue
  totalPages : JSValue
  totalRecords : JSValue
  recordsPerPage : JSValue
  hasNextPage : JSValue
  hasPrevPage : JSValue

/-- Default value of the `pagination` prop (source lines 561-568). -/
def Pagination.default : Pagination :=
  ⟨.num 1, .num 1, .num 0, .num 50, .bool false, .bool false⟩

/-- One `StudyRow` element produced by the `map` in the table body. -/
structure RowElement where
  key : JSValue
  study : Study
  index : Nat

/-- Props handed to `TableFooter` (source lines 705-714). -/
structure TableFooterProps where
  currentPage : JSValue
  totalPages : JSValue
  totalRecords : JSValue
  recordsPerPage : JSValue
  displayedRecords : Nat
  loading : Bool

/-- The kinds of modal the controller can mount. -/
inductive ModalKind where
  | detailedView
  | report
  | studyNotes
  | patientEdit
  | timeline
  deriving DecidableEq, Repr

/-- What the component returns: one of its three `return` statements. -/
inductive Rendered where
  | loadingIndicator
  | emptyState
  | table (header : List String) (rows : List RowElement) (footer : Option TableFooterProps)
      (modals : List ModalKind)

/-- The nineteen header cells of the populated table (source lines 641-681); a cell that
holds only an icon is named after the icon. -/
def headerColumns : List String :=
  ["BP ID", "CENTER NAME", "SUB CENTER", "Clock", "PT NAME / UHID", "AGE/ SEX", "MOD", "Eye",
   "Download Monitor", "STUDY / SERIES / IMAGES", "PT ID/ ACC. NO.", "REFERRAL DOCTOR",
   "CLINICAL HISTORY", "STUDY DATE/TIME", "UPLOAD DATE/TIME", "STATUS", "REJECTION REASON",
   "VIEW", "FileText"]

/-- Source lines 686-699: `studies.map((study, index) => <StudyRow key={study._id} .../>)`. -/
def studyRows (studies : List Study) : List RowElement :=
  studies.mapIdx (fun index study => ⟨study.get "_id", study, index⟩)

/-- Source lines 718-722: the modals whose `show` flag is set, in mount order. -/
def mountedModals (ctrl : ControllerState) : List ModalKind :=
  (if ctrl.detailedView.shown then [ModalKind.detailedView] else []) ++
  (if ctrl.reportModal.shown then [ModalKind.report] else []) ++
  (if ctrl.studyNotes.shown then [ModalKind.studyNotes] else []) ++
  (if ctrl.patientEditModal.shown then [ModalKind.patientEdit] else []) ++
  (if ctrl.timelineModal.shown then [ModalKind.timeline] else [])

/-- The render function of `DoctorWorklistTable` (source lines 616-724). -/
def DoctorWorklistTable (studies : List Study) (loading : Bool) (pagination : Pagination)
    (ctrl : ControllerState) : Rendered :=
  if loading then .loadingIndicator
  else if studies.length = 0 then .emptyState
  else
    .table headerColumns (studyRows studies)
      (if studies.length > 0 then
        some ⟨pagination.currentPage, pagination.totalPages, pagination.totalRecords,
          pagination.recordsPerPage, studies.length, loading⟩
       else none)
      (mountedModals ctrl)

/-- Rows of a rendered tree (none outside the populated table). -/
def Rendered.rows : Rendered → List RowElement
  | .table _ rows _ _ => rows
  | _ => []

/-- Header cells of a rendered tree (none outside the populated table). -/
def Rendered.header : Rendered → List String
  | .table header _ _ _ => header
  | _ => []

/-- Footer of a rendered tree, if one is mounted. -/
def Rendered.footer : Rendered → Option TableFooterProps
  | .table _ _ footer _ => footer
  | _ => none

/-- The three states the component can render. -/
inductive ViewState where
  | loading
  | empty
  | populated
  deriving DecidableEq, Repr

/-- Which of the three states a rendered tree is. -/
def Rendered.state : Rendered → ViewState
  | .loadingIndicator => .loading
  | .emptyState => .empty
  | .table _ _ _ _ => .populated

/-! ## Patient-edit submission (source lines 114-125, 607-614 and 721) -/

/-- How an awaited call ends: it returns a value, it throws (a rejected promise or a
synchronous throw inside the `try`), or it never settles. -/
inductive Completion (α : Type) where
  | returned (value : α)
  | thrown (error : JSValue)
  | pending

/-- The external update service as the controller sees it: the way
`await onUpdateStudyDetails(formData)` ends for a given payload. -/
abbrev UpdateService := JSValue → Completion JSValue

/-- One `console.error(message, error)` call. -/
structure ConsoleEntry where
  message : String
  error : JSValue

/-- Everything the submission flow can change: the controller state, the `loading` flag of
the edit form and the console. -/
structure TableWorld where
  ctrl : ControllerState
  editLoading : Bool
  console : List ConsoleEntry

/-- Record a `console.error` call. -/
def TableWorld.logError (w : TableWorld) (message : String) (error : JSValue) : TableWorld :=
  { w with console := w.console ++ [⟨message, error⟩] }

/-- The setter `setPatientEditModal(value)`. -/
def setPatientEditModal (value : PatientEditModalState) (w : TableWorld) : TableWorld :=
  { w with ctrl := { w.ctrl with patientEditModal := value } }

/-- Assignment of one property in an object literal that starts with a spread: the key keeps
its place if the spread already supplied it, otherwise it is appended. -/
def JSProps.set : JSProps → String → JSValue → JSProps
  | .nil, key, value => .cons key value .nil
  | .cons k v rest, key, value =>
    if k = key then .cons k value rest else .cons k v (rest.set key value)

/-- Calling a callback prop that may be `undefined`: calling `undefined` throws a `TypeError`. -/
def callUpdate (onUpdateStudyDetails : Option UpdateService) (formData : JSValue) :
    Completion JSValue :=
  match onUpdateStudyDetails with
  | some service => service formData
  | none => .thrown (typeError "onUpdateStudyDetails is not a function")

/-- Translation of `handleSavePatientEdit` (source lines 607-614): the `catch` logs and
falls through, so the returned promise is fulfilled in both branches. -/
def handleSavePatientEdit (onUpdateStudyDetails : Option UpdateService) (formData : JSValue)
    (w : TableWorld) : Completion Unit × TableWorld :=
  match callUpdate onUpdateStudyDetails formData with
  | .returned _ => (.returned (), setPatientEditModal ⟨false, .null⟩ w)
  | .thrown error => (.returned (), w.logError "Error in handleSavePatientEdit:" error)
  | .pending => (.pending, w)

/-- Translation of `PatientEditModal.handleSubmit` (source lines 114-125) for the props
`study`, `onClose` and `onSave` and the current draft `formData`. -/
def PatientEditModal.handleSubmit (study : JSValue) (onClose : TableWorld → TableWorld)
    (onSave : JSValue → TableWorld → Completion Unit × TableWorld) (formData : JSProps)
    (w : TableWorld) : Completion Unit × TableWorld :=
  let w1 := { w with editLoading := true }
  match study.getProp "_id" with
  | .error error =>
    (.returned (), { w1.logError "Error saving patient details:" error with editLoading := false })
  | .ok studyId =>
    match onSave (.obj (formData.set "studyId" studyId)) w1 with
    | (.returned _, w2) => (.returned (), { onClose w2 with editLoading := false })
    | (.thrown error, w2) =>
      (.returned (), { w2.logError "Error saving patient details:" error with editLoading := false })
    | (.pending, w2) => (.pending, w2)

/-- The `onClose` prop the controller gives to the edit modal (source line 721). -/
def closePatientEditModal (w : TableWorld) : TableWorld :=
  setPatientEditModal ⟨false, .null⟩ w

/-- Submitting the edit form as mounted by the controller (source line 721):
`study={patientEditModal.study}`, `onClose` resets the modal state and
`onSave={handleSavePatientEdit}`. -/
def submitPatientEdit (onUpdateStudyDetails : Option UpdateService) (formData : JSProps)
    (w : TableWorld) : Completion Unit × TableWorld :=
  PatientEditModal.handleSubmit w.ctrl.patientEditModal.study closePatientEditModal
    (handleSavePatientEdit onUpdateStudyDetails) formData w

/-! ## Patient-edit draft (source lines 89-112) -/

/-- The draft held by the edit form: the seven keys of `formData`. -/
structure EditDraft where
  patientName : JSValue
  patientAge : JSValue
  patientGender : JSValue
  studyName : JSValue
  referringPhysician : JSValue
  accessionNumber : JSValue
  clinicalHistory : JSValue

/-- The draft as the object held in state, keys in literal order. -/
def EditDraft.toProps (d : EditDraft) : JSProps :=
  .ofList [("patientName", d.patientName), ("patientAge", d.patientAge),
    ("patientGender", d.patientGender), ("studyName", d.studyName),
    ("referringPhysician", d.referringPhysician), ("accessionNumber", d.accessionNumber),
    ("clinicalHistory", d.clinicalHistory)]

/-- Initial value of the `formData` state (source lines 89-97): every field the empty string. -/
def PatientEditModal.initialFormData : EditDraft :=
  ⟨.str "", .str "", .str "", .str "", .str "", .str "", .str ""⟩

/-- Own keys of an object, in order. -/
def JSProps.keys : JSProps → List String
  | .nil => []
  | .cons k _ rest => k :: rest.keys

/-- Test that a value is a string (`typeof v === 'string'`). -/
def JSValue.isString : JSValue → Bool
  | .str _ => true
  | _ => false

/-- Test that every field of a draft is a string. -/
def EditDraft.allStrings (d : EditDraft) : Bool :=
  d.patientName.isString && d.patientAge.isString && d.patientGender.isString &&
  d.studyName.isString && d.referringPhysician.isString && d.accessionNumber.isString &&
  d.clinicalHistory.isString

/-- The effect that fills the draft from the study (source lines 100-112). It returns the
draft after the effect, or the value thrown while the object literal is evaluated. The
last field is `typeof ch === 'object' ? ch.clinicalHistory : (ch || '')`. -/
def PatientEditModal.initFormData (study : JSValue) (isOpen : Bool) (formData : EditDraft) :
    Except JSValue EditDraft :=
  if study.truthy && isOpen then do
    let patientName ← study.getProp "patientName"
    let patientAge ← study.getProp "patientAge"
    let patientGender ← study.getProp "patientGender"
    let patientSex ← study.getProp "patientSex"
    let studyDescription ← study.getProp "studyDescription"
    let studyName ← study.getProp "studyName"
    let referringPhysicianName ← study.getProp "referringPhysicianName"
    let referringPhysician ← study.getProp "referringPhysician"
    let accessionNumber ← study.getProp "accessionNumber"
    let history ← study.getProp "clinicalHistory"
    let clinicalHistory ←
      if history.typeOf == "object" then history.getProp "clinicalHistory"
      else pure (history.orElse (.str ""))
    pure
      { patientName := patientName.orElse (.str "")
        patientAge := patientAge.orElse (.str "")
        patientGender := (patientGender.orElse patientSex).orElse (.str "")
        studyName := (studyDescription.orElse studyName).orElse (.str "")
        referringPhysician := (referringPhysicianName.orElse referringPhysician).orElse (.str "")
        accessionNumber := accessionNumber.orElse (.str "")
        clinicalHistory := clinicalHistory }
  else pure formData

/-! ## Modal handlers of the controller (source lines 579-605 and 718-722) -/

/-- Translation of `handleShowTimeline` (source lines 579-581). -/
def handleShowTimeline (study : Study) (c : ControllerState) : ControllerState :=
  { c with timelineModal := ⟨true, study.get "_id", .obj study⟩ }

/-- Translation of `handleShowDetailedView` (source lines 583-585). -/
def handleShowDetailedView (studyId : JSValue) (c : ControllerState) : ControllerState :=
  { c with detailedView := ⟨true, studyId⟩ }

/-- Translation of `handleViewReport` (source lines 587-593). -/
def handleViewReport (study : Study) (c : ControllerState) : ControllerState :=
  { c with reportModal := ⟨true, study.get "_id", .obj study⟩ }

/-- Translation of `handleShowStudyNotes` (source lines 595-597). -/
def handleShowStudyNotes (studyId : JSValue) (c : ControllerState) : ControllerState :=
  { c with studyNotes := ⟨true, studyId⟩ }

/-- Translation of `handleViewStudy` (source lines 599-601). -/
def handleViewStudy (study : Study) (c : ControllerState) : ControllerState :=
  handleShowDetailedView (study.get "_id") c

/-- Translation of `handleEditPatient` (source lines 603-605). -/
def handleEditPatient (study : JSValue) (c : ControllerState) : ControllerState :=
  { c with patientEditModal := ⟨true, study⟩ }

/-- The `onClose` of the detailed view (source line 718). -/
def closeDetailedView (c : ControllerState) : ControllerState :=
  { c with detailedView := ⟨false, .null⟩ }

/-- The `onClose` of the report modal (source line 719). -/
def closeReportModal (c : ControllerState) : ControllerState :=
  { c with reportModal := ⟨false, .null, .null⟩ }

/-- The `onClose` of the study notes (source line 720). -/
def closeStudyNotes (c : ControllerState) : ControllerState :=
  { c with studyNotes := ⟨false, .null⟩ }

/-- The `onClose` of the patient-edit modal (source line 721), on the controller state. -/
def closePatientEdit (c : ControllerState) : ControllerState :=
  { c with patientEditModal := ⟨false, .null⟩ }

/-- The `onClose` of the timeline modal (source line 722). -/
def closeTimelineModal (c : ControllerState) : ControllerState :=
  { c with timelineModal := ⟨false, .null, .null⟩ }

/-- The events that change the modal state: the six open handlers with their argument and
the five close callbacks. -/
inductive ControllerAction where
  | showTimeline (study : Study)
  | showDetailedView (studyId : JSValue)
  | viewStudy (study : Study)
  | viewReport (study : Study)
  | showStudyNotes (studyId : JSValue)
  | editPatient (study : JSValue)
  | closeDetailedView
  | closeReport
  | closeStudyNotes
  | closePatientEdit
  | closeTimeline

/-- The modal kind whose state setter an action calls. -/
def ControllerAction.kind : ControllerAction → ModalKind
  | .showTimeline _ => .timeline
  | .showDetailedView _ => .detailedView
  | .viewStudy _ => .detailedView
  | .viewReport _ => .report
  | .showStudyNotes _ => .studyNotes
  | .editPatient _ => .patientEdit
  | .closeDetailedView => .detailedView
  | .closeReport => .report
  | .closeStudyNotes => .studyNotes
  | .closePatientEdit => .patientEdit
  | .closeTimeline => .timeline

/-- One event applied to the controller state. -/
def ControllerState.step (c : ControllerState) : ControllerAction → ControllerState
  | .showTimeline study => handleShowTimeline study c
  | .showDetailedView studyId => handleShowDetailedView studyId c
  | .viewStudy study => handleViewStudy study c
  | .viewReport study => handleViewReport study c
  | .showStudyNotes studyId => handleShowStudyNotes studyId c
  | .editPatient study => handleEditPatient study c
  | .closeDetailedView => Worklist.closeDetailedView c
  | .closeReport => closeReportModal c
  | .closeStudyNotes => Worklist.closeStudyNotes c
  | .closePatientEdit => Worklist.closePatientEdit c
  | .closeTimeline => closeTimelineModal c

/-- A sequence of events applied in order. -/
def ControllerState.run (c : ControllerState) (actions : List ControllerAction) :
    ControllerState :=
  actions.foldl ControllerState.step c

/-- The invariant of the modal state: a hidden modal holds no payload. -/
def ControllerState.hiddenIsEmpty (c : ControllerState) : Prop :=
  (c.detailedView.shown = false → c.detailedView.studyId = .null) ∧
  (c.reportModal.shown = false →
    c.reportModal.studyId = .null ∧ c.reportModal.studyData = .null) ∧
  (c.studyNotes.shown = false → c.studyNotes.studyId = .null) ∧
  (c.patientEditModal.shown = false → c.patientEditModal.study = .null) ∧
  (c.timelineModal.shown = false →
    c.timelineModal.studyId = .null ∧ c.timelineModal.studyData = .null)

/-! ## Row actions of `StudyRow` (source lines 272-300, 337, 349, 465, 522, 533) -/

/-- A guarded call `callback?.(arg)` acting on a state: nothing happens when the callback
is `undefined`. -/
def optionalCall {α σ : Type} (callback : Option (α → σ → σ)) (arg : α) (s : σ) : σ :=
  match callback with
  | some f => f arg s
  | none => s

/-- Click on the timeline button: `onShowTimeline?.(study)` (source line 337). -/
def StudyRow.timelineClick {σ : Type} (onShowTimeline : Option (Study → σ → σ)) (study : Study)
    (s : σ) : σ :=
  optionalCall onShowTimeline study s

/-- Click on the patient name: `onPatienIdClick?.(study.patientId, study)` (source line 349). -/
def StudyRow.patientClick {σ : Type} (onPatienIdClick : Option (JSValue × Study → σ → σ))
    (study : Study) (s : σ) : σ :=
  optionalCall onPatienIdClick (study.get "patientId", study) s

/-- Click on the notes button: `onShowStudyNotes?.(study._id)` (source line 465). -/
def StudyRow.notesClick {σ : Type} (onShowStudyNotes : Option (JSValue → σ → σ)) (study : Study)
    (s : σ) : σ :=
  optionalCall onShowStudyNotes (study.get "_id") s

/-- Click on View: `onViewStudy?.(study)` (source line 522). -/
def StudyRow.viewClick {σ : Type} (onViewStudy : Option (Study → σ → σ)) (study : Study)
    (s : σ) : σ :=
  optionalCall onViewStudy study s

/-- Click on the report button: `onViewReport?.(study)` (source line 533). -/
def StudyRow.reportClick {σ : Type} (onViewReport : Option (Study → σ → σ)) (study : Study)
    (s : σ) : σ :=
  optionalCall onViewReport study s

/-- One `navigate(path, { state })` call. -/
structure NavigateCall where
  path : String
  state : JSProps

/-- Translation of `handleViewOnlyClick` (source lines 284-289). -/
def handleViewOnlyClick (study : Study) : NavigateCall :=
  ⟨"/doctor/viewer/" ++ (study.get "_id").toStr, .ofList [("study", .obj study)]⟩

/-- Translation of `handleOHIFReporting` (source lines 292-300): the `console.log` call
(message and argument) and the `navigate` call. -/
def handleOHIFReporting (study : Study) : (String × JSValue) × NavigateCall :=
  (("🟢 OHIF + Reporting:", study.get "_id"),
   ⟨"/online-reporting/" ++ (study.get "_id").toStr ++ "?openOHIF=true",
    .ofList [("study", .obj study),
      ("studyInstanceUID", (study.get "studyInstanceUID").orElse (study.get "_id"))]⟩)

/-- Source line 269: the background class, by parity of the row index. -/
def rowBackground (index : Nat) : String :=
  if index % 2 = 0 then "bg-white" else "bg-slate-50/50"

/-- Translation of `rowClasses` (source lines 268-270). -/
def rowClasses (study : Study) (index : Nat) : String :=
  rowBackground index ++ " " ++
  (if isUrgent study then "border-l-4 border-l-rose-500" else "") ++ " " ++
  (if isRejected study then "border-l-4 border-l-rose-600" else "") ++
  " hover:bg-teal-50/50 transition-all duration-200 border-b border-slate-100"

/-- Test that a text begins with a pattern. -/
def charsStartWith : List Char → List Char → Bool
  | _, [] => true
  | [], _ :: _ => false
  | c :: cs, p :: ps => c == p && charsStartWith cs ps

/-- Test that a pattern occurs somewhere in a text. -/
def charsContain : List Char → List Char → Bool
  | [], pat => pat.isEmpty
  | c :: cs, pat => charsStartWith (c :: cs) pat || charsContain cs pat

/-- A class string carries a run of classes when the run occurs in it. -/
def classCarries (className accent : String) : Bool :=
  charsContain className.data accent.data

/-- The bounding rectangle of the trigger, as far as the handler reads it. -/
structure Rect where
  bottom : Int
  left : Int
  width : Int

/-- The scroll offsets of the window. -/
structure Scroll where
  scrollX : Int
  scrollY : Int

/-- The value stored in `downloadPosition`. -/
structure PopoverPosition where
  top : Int
  left : Int
  width : Int
  deriving DecidableEq, Repr

/-- The two `useState` cells of a row (source lines 258-259). -/
structure RowState where
  showDownloadOptions : Bool
  downloadPosition : Option PopoverPosition
  deriving DecidableEq, Repr

/-- Initial row state: popover closed, no position. -/
def RowState.initial : RowState := ⟨false, none⟩

/-- Translation of `handleDownloadClick` (source lines 272-281); `rect` is the bounding
rectangle of the download button at the time of the click. -/
def handleDownloadClick (rect : Rect) (window : Scroll) (s : RowState) : RowState :=
  { showDownloadOptions := !s.showDownloadOptions
    downloadPosition := some ⟨rect.bottom + window.scrollY, rect.left + window.scrollX, rect.width⟩ }

/-- The `onClose` of `DownloadOptions` (source line 547). -/
def closeDownloadOptions (s : RowState) : RowState :=
  { s with showDownloadOptions := false }

/-! ## Clipboard (source lines 76-85) -/

/-- A call of the notification service. -/
inductive Toast where
  | success (message : String) (position : String) (duration : Nat)
  | error (message : String)
  deriving DecidableEq, Repr

/-- How evaluating `navigator.clipboard.writeText(text)` ends: it throws (a `TypeError` when
`navigator.clipboard` is `undefined`, or whatever `writeText` throws), it returns a value
that is no promise, or it returns a promise that is fulfilled, rejected or never settled. -/
inductive WriteOutcome where
  | fulfilled
  | rejected (reason : JSValue)
  | pending
  | thrown (error : JSValue)
  | nonPromise (value : JSValue)

/-- Translation of `copyToClipboard` (source lines 76-85). There is no `try`: a throw while
`navigator.clipboard.writeText(text)` is evaluated, or on `.then` of a value that is no
promise, leaves the function at once. Otherwise the call returns and the notifications are
those issued once the promise chain has run. The parameter `label` defaults to `'ID'` when
the argument is `undefined`. -/
def copyToClipboard (writeText : JSValue → WriteOutcome) (text : JSValue) (label : JSValue) :
    Completion Unit × List Toast :=
  let label := match label with
    | .undefined => JSValue.str "ID"
    | v => v
  match writeText text with
  | .thrown error => (.thrown error, [])
  | .nonPromise value =>
    match value.getProp "then" with
    | .error error => (.thrown error, [])
    | .ok _ => (.thrown (typeError "navigator.clipboard.writeText(...).then is not a function"), [])
  | .fulfilled => (.returned (), [.success (label.toStr ++ " copied to clipboard!") "bottom-right" 2000])
  | .rejected _ => (.returned (), [.error "Failed to copy to clipboard"])
  | .pending => (.returned (), [])

/-! ## Two-digit fields -/

/-- The two decimal digits of a number below one hundred, tens first. -/
def twoDigits (n : Nat) : String :=
  String.mk [Char.ofNat (48 + n / 10), Char.ofNat (48 + n % 10)]

/-! ## Events of the rendered table (source lines 244-553 and 686-722) -/

/-- Everything an event on the table can act on: the modal state of the controller, the
state owned by the parent component (reached only through `onPatienIdClick`), the local
state of each row by index, and the calls made to the router, the notification service and
the console. -/
structure Page (ε : Type) where
  ctrl : ControllerState
  outside : ε
  downloads : Nat → RowState
  navigations : List NavigateCall
  toasts : List Toast
  console : List (String × JSValue)

/-- The callback props of `StudyRow` (source lines 244-255). -/
structure StudyRowProps (ε : Type) where
  onPatienIdClick : Option (JSValue × Study → Page ε → Page ε)
  onShowDetailedView : Option (JSValue → Page ε → Page ε)
  onViewReport : Option (Study → Page ε → Page ε)
  onShowStudyNotes : Option (JSValue → Page ε → Page ε)
  onViewStudy : Option (Study → Page ε → Page ε)
  onEditPatient : Option (JSValue → Page ε → Page ε)
  onShowTimeline : Option (Study → Page ε → Page ε)
  onOpenOHIFReporting : Option (Study → Page ε → Page ε)

/-- The things a user can do on a row: one constructor per `onClick` (and the `onClose` of
the download popover) in the markup of `StudyRow`. -/
inductive RowEvent where
  | copyId
  | timeline
  | patientClick
  | viewer
  | downloadToggle (rect : Rect) (window : Scroll)
  | reporting
  | attachments
  | notes
  | view
  | report
  | downloadClose

/-- What each `onClick` of `StudyRow` does (source lines 312, 337, 349, 382, 396, 405, 452,
465, 522, 533 and 547), for the row of `study` at position `index`. The props
`onShowDetailedView`, `onEditPatient` and `onOpenOHIFReporting` are received and used by no
handler. -/
def StudyRow.handle {ε : Type} (props : StudyRowProps ε) (writeText : JSValue → WriteOutcome)
    (study : Study) (index : Nat) (event : RowEvent) (p : Page ε) : Page ε :=
  match event with
  | .copyId =>
    { p with toasts := p.toasts ++
        (copyToClipboard writeText
          (if !(study.get "bharatPacsId").strictEqStr "N/A" then study.get "bharatPacsId"
           else study.get "_id")
          (.str "BP ID")).2 }
  | .timeline => StudyRow.timelineClick props.onShowTimeline study p
  | .patientClick => StudyRow.patientClick props.onPatienIdClick study p
  | .viewer => { p with navigations := p.navigations ++ [handleViewOnlyClick study] }
  | .downloadToggle rect window =>
    { p with downloads :=
        Function.update p.downloads index (handleDownloadClick rect window (p.downloads index)) }
  | .reporting =>
    { p with console := p.console ++ [(handleOHIFReporting study).1]
             navigations := p.navigations ++ [(handleOHIFReporting study).2] }
  | .attachments => { p with console := p.console ++ [("Show attachments:", study.get "_id")] }
  | .notes => StudyRow.notesClick props.onShowStudyNotes study p
  | .view => StudyRow.viewClick props.onViewStudy study p
  | .report => StudyRow.reportClick props.onViewReport study p
  | .downloadClose =>
    { p with downloads := Function.update p.downloads index (closeDownloadOptions (p.downloads index)) }

/-- The props the controller passes to every row (source lines 687-698): the parent's
`onPatienIdClick`, which can reach only the parent's own state, and the controller's
handlers. `onOpenOHIFReporting` is not passed. -/
def DoctorWorklistTable.rowProps {ε : Type}
    (onPatienIdClick : Option (JSValue × Study → ε → ε)) : StudyRowProps ε :=
  { onPatienIdClick :=
      onPatienIdClick.map (fun f arg p => { p with outside := f arg p.outside })
    onShowDetailedView := some (fun studyId p => { p with ctrl := handleShowDetailedView studyId p.ctrl })
    onViewReport := some (fun study p => { p with ctrl := handleViewReport study p.ctrl })
    onShowStudyNotes := some (fun studyId p => { p with ctrl := handleShowStudyNotes studyId p.ctrl })
    onViewStudy := some (fun study p => { p with ctrl := handleViewStudy study p.ctrl })
    onEditPatient := some (fun study p => { p with ctrl := handleEditPatient study p.ctrl })
    onShowTimeline := some (fun study p => { p with ctrl := handleShowTimeline study p.ctrl })
    onOpenOHIFReporting := none }

/-- The events of the rendered table: a user event on the row of a study, or the close
callback of one of the five modals. -/
inductive TableEvent where
  | row (study : Study) (index : Nat) (event : RowEvent)
  | closeDetailedView
  | closeReport
  | closeStudyNotes
  | closePatientEdit
  | closeTimeline

/-- One event of the rendered table applied to the page. -/
def Page.step {ε : Type} (onPatienIdClick : Option (JSValue × Study → ε → ε))
    (writeText : JSValue → WriteOutcome) (p : Page ε) : TableEvent → Page ε
  | .row study index event =>
    StudyRow.handle (DoctorWorklistTable.rowProps onPatienIdClick) writeText study index event p
  | .closeDetailedView => { p with ctrl := Worklist.closeDetailedView p.ctrl }
  | .closeReport => { p with ctrl := closeReportModal p.ctrl }
  | .closeStudyNotes => { p with ctrl := Worklist.closeStudyNotes p.ctrl }
  | .closePatientEdit => { p with ctrl := Worklist.closePatientEdit p.ctrl }
  | .closeTimeline => { p with ctrl := closeTimelineModal p.ctrl }

/-- A sequence of events applied in order. -/
def Page.run {ε : Type} (onPatienIdClick : Option (JSValue × Study → ε → ε))
    (writeText : JSValue → WriteOutcome) (p : Page ε) (events : List TableEvent) : Page ε :=
  events.foldl (Page.step onPatienIdClick writeText) p

/-- The page after the first render: modals hidden, popovers closed, nothing called yet. -/
def Page.initial {ε : Type} (outside : ε) : Page ε :=
  ⟨ControllerState.initial, outside, fun _ => RowState.initial, [], [], []⟩

/-! ## Login page (`client/src/pages/Login.jsx`, source lines 99-160) -/

/-- The code points `String.prototype.trim` removes: white space and line terminators. -/
def isTrimChar (c : Char) : Bool :=
  c.toNat == 0x09 || c.toNat == 0x0A || c.toNat == 0x0B || c.toNat == 0x0C ||
  c.toNat == 0x0D || c.toNat == 0x20 || c.toNat == 0xA0 || c.toNat == 0x1680 ||
  (0x2000 ≤ c.toNat && c.toNat ≤ 0x200A) || c.toNat == 0x2028 || c.toNat == 0x2029 ||
  c.toNat == 0x202F || c.toNat == 0x205F || c.toNat == 0x3000 || c.toNat == 0xFEFF

/-- `s.trim()`: the string without its leading and trailing white space. -/
def jsTrim (s : String) : String :=
  String.mk ((s.data.dropWhile isTrimChar).reverse.dropWhile isTrimChar).reverse

/-- The object built by `new Error(message)`. -/
def newError (message : String) : JSValue :=
  .obj (.ofList [("name", .str "Error"), ("message", .str message)])

/-- The `formData` state of the login page (source lines 100-103): two strings. -/
structure LoginForm where
  email : String
  password : String

/-- One call of `console.log` or `console.error` on the login page. -/
structure LoginConsoleCall where
  method : String
  message : String
  argument : JSValue

/-- Everything `handleSubmit` can change: the `isLoading` flag, and the calls made to the
external `login` function (email, password), to `navigate` (target; always with
`replace: true`) and to the console. -/
structure LoginWorld where
  isLoading : Bool
  loginCalls : List (String × String)
  navigations : List JSValue
  console : List LoginConsoleCall

/-- The external `login` function as the page sees it: the way `await login(email,
password)` ends. -/
abbrev LoginService := String → String → Completion JSValue

/-- The body of the `try` block of `handleSubmit` (source lines 138-153), with
`location.state` and the value of `getDashboardRoute()` given. A `thrown` result is what
reaches the `catch`. -/
def LoginPage.tryBody (login : LoginService) (locationState dashboardRoute : JSValue)
    (formData : LoginForm) (w : LoginWorld) : Completion Unit × LoginWorld :=
  if !(JSValue.str (jsTrim formData.email)).truthy ||
      !(JSValue.str (jsTrim formData.password)).truthy then
    (.thrown (newError "Please provide both email and password"), w)
  else
    let w1 := { w with
      loginCalls := w.loginCalls ++ [(jsTrim formData.email, formData.password)] }
    match login (jsTrim formData.email) formData.password with
    | .pending => (.pending, w1)
    | .thrown error => (.thrown error, w1)
    | .returned result =>
      match result.getProp "user", result.getProp "redirectTo" with
      | .error error, _ => (.thrown error, w1)
      | .ok _, .error error => (.thrown error, w1)
      | .ok user, .ok redirectTo =>
        match user.getProp "role", user.getProp "email" with
        | .error error, _ => (.thrown error, w1)
        | .ok _, .error error => (.thrown error, w1)
        | .ok role, .ok email =>
          (.returned (),
            { w1 with
              console := w1.console ++
                [⟨"log", "✅ Login successful:",
                  .obj (.ofList [("role", role), ("email", email), ("redirectTo", redirectTo)])⟩]
              navigations := w1.navigations ++
                [((locationState.getPropOpt "from").orElse redirectTo).orElse dashboardRoute] })

/-- Translation of `handleSubmit` (source lines 133-160): the `catch` logs `err.message`,
a read that itself throws when the caught value is `null` or `undefined`; the `finally`
clears `isLoading` on every way out. -/
def LoginPage.handleSubmit (login : LoginService) (locationState dashboardRoute : JSValue)
    (formData : LoginForm) (w : LoginWorld) : Completion Unit × LoginWorld :=
  match LoginPage.tryBody login locationState dashboardRoute formData
      { w with isLoading := true } with
  | (.returned _, w1) => (.returned (), { w1 with isLoading := false })
  | (.pending, w1) => (.pending, w1)
  | (.thrown err, w1) =>
    match err.getProp "message" with
    | .ok message =>
      (.returned (),
        { w1 with
          console := w1.console ++ [⟨"error", "❌ Login failed:", message⟩]
          isLoading := false })
    | .error error => (.thrown error, { w1 with isLoading := false })

/-! ## Shapes of the source fields of the draft -/

/-- The fields of a study that the draft is filled from, `clinicalHistory` apart (source
lines 103-108). -/
def draftSources : List String :=
  ["patientName", "patientAge", "patientGender", "patientSex", "studyDescription", "studyName",
   "referringPhysicianName", "referringPhysician", "accessionNumber"]

/-- Test that a value is a string or is missing (`undefined` or `null`). -/
def JSValue.isStringOrAbsent : JSValue → Bool
  | .str _ => true
  | .undefined => true
  | .null => true
  | _ => false

/-! # Properties -/

/-! ## Helper lemmas -/

/-- Strict equality with a literal holds exactly for that string value. -/
theorem strictEqStr_iff (v : JSValue) (lit : String) :
    v.strictEqStr lit = true ↔ v = .str lit := by
  cases v <;> simp [JSValue.strictEqStr]

/-- A value that is none of the twelve recognised strings fails every `case` test. -/
theorem unrecognised_cases (v : JSValue) (h : ∀ s ∈ recognisedStatuses, v ≠ .str s) :
    v ≠ .str "new_study_received" ∧ v ≠ .str "pending_assignment" ∧
    v ≠ .str "assigned_to_doctor" ∧ v ≠ .str "doctor_opened_report" ∧
    v ≠ .str "report_in_progress" ∧ v ≠ .str "report_drafted" ∧
    v ≠ .str "report_finalized" ∧ v ≠ .str "final_report_downloaded" ∧
    v ≠ .str "verification_in_progress" ∧ v ≠ .str "report_verified" ∧
    v ≠ .str "report_rejected" ∧ v ≠ .str "archived" := by
  simpa only [recognisedStatuses, List.mem_cons, List.mem_singleton, forall_eq_or_imp, forall_eq,
    List.not_mem_nil, false_imp_iff, implies_true, and_true] using h

/-! ## Patient-edit submission -/

/-- The two handlers composed as the controller mounts them (source line 721), with a
failing update service and the edit modal open: the submission ends normally, one error is
logged by `handleSavePatientEdit`, and since that handler returns normally `handleSubmit`
goes on to `onClose` (whatever `onClose` is, the final state is its result). -/
theorem submitPatientEdit_after_failure (error : JSValue) (study formData : JSProps)
    (ctrl : ControllerState) (console : List ConsoleEntry) :
    (submitPatientEdit (some (fun _ => Completion.thrown error)) formData
        ⟨{ ctrl with patientEditModal := ⟨true, .obj study⟩ }, false, console⟩).1
      = Completion.returned () ∧
    (submitPatientEdit (some (fun _ => Completion.thrown error)) formData
        ⟨{ ctrl with patientEditModal := ⟨true, .obj study⟩ }, false, console⟩).2
      = closePatientEditModal
          ⟨{ ctrl with patientEditModal := ⟨true, .obj study⟩ }, false,
            console ++ [⟨"Error in handleSavePatientEdit:", error⟩]⟩ ∧
    (∀ onClose : TableWorld → TableWorld,
      (PatientEditModal.handleSubmit (.obj study) onClose
          (handleSavePatientEdit (some (fun _ => Completion.thrown error))) formData
          ⟨ctrl, false, console⟩).2
        = { onClose ⟨ctrl, true, console ++ [⟨"Error in handleSavePatientEdit:", error⟩]⟩ with
            editLoading := false }) := by
  refine ⟨rfl, rfl, fun _ => rfl⟩

/-- C1 counterexample: `PatientEditModal.handleSubmit` run with the props of source line
721 (study `s1`, `onSave = handleSavePatientEdit`) and an update service that rejects with
`'boom'`: nothing is thrown and the error is logged once, but the modal does not stay open:
`onClose` has run and `patientEditModal.show` is false. -/
theorem submit_with_failing_service_closes :
    (submitPatientEdit (some (fun _ => Completion.thrown (.str "boom")))
        (.ofList [("patientName", .str "J Doe")])
        ⟨{ ControllerState.initial with
            patientEditModal := ⟨true, .obj (.ofList [("_id", .str "s1")])⟩ }, false, []⟩).1
      = Completion.returned () ∧
    (submitPatientEdit (some (fun _ => Completion.thrown (.str "boom")))
        (.ofList [("patientName", .str "J Doe")])
        ⟨{ ControllerState.initial with
            patientEditModal := ⟨true, .obj (.ofList [("_id", .str "s1")])⟩ }, false, []⟩).2.console
      = [⟨"Error in handleSavePatientEdit:", .str "boom"⟩] ∧
    (submitPatientEdit (some (fun _ => Completion.thrown (.str "boom")))
        (.ofList [("patientName", .str "J Doe")])
        ⟨{ ControllerState.initial with
            patientEditModal := ⟨true, .obj (.ofList [("_id", .str "s1")])⟩ }, false, []⟩).2.ctrl.patientEditModal.shown
      = false :=
  ⟨rfl, rfl, rfl⟩

/-- C1 amended: each handler, taken with a callee that fails, keeps the modal open. When
the update service fails, `handleSavePatientEdit` leaves `patientEditModal` as it is, logs
the error and returns normally. When the `onSave` it was given fails,
`PatientEditModal.handleSubmit` does not call `onClose` (its result does not mention it),
logs the error, clears its loading flag and returns normally. -/
theorem handlers_keep_modal_on_failure (study formData : JSProps) (w : TableWorld) :
    (∀ (service : UpdateService) (payload error : JSValue), service payload = .thrown error →
      handleSavePatientEdit (some service) payload w =
        (Completion.returned (), w.logError "Error in handleSavePatientEdit:" error) ∧
      (handleSavePatientEdit (some service) payload w).2.ctrl.patientEditModal
        = w.ctrl.patientEditModal) ∧
    (∀ (onClose : TableWorld → TableWorld)
        (onSave : JSValue → TableWorld → Completion Unit × TableWorld)
        (error : JSValue) (w2 : TableWorld),
      onSave (.obj (formData.set "studyId" (study.get "_id"))) { w with editLoading := true }
        = (Completion.thrown error, w2) →
      PatientEditModal.handleSubmit (.obj study) onClose onSave formData w =
        (Completion.returned (),
          { w2.logError "Error saving patient details:" error with editLoading := false })) := by
  refine ⟨?_, ?_⟩
  · intro service payload error h
    simp [handleSavePatientEdit, callUpdate, h, TableWorld.logError]
  · intro onClose onSave error w2 h
    simp [PatientEditModal.handleSubmit, JSValue.getProp, h]

/-- Witness for C1 amended: with the modal open on study `s1` and a service that rejects
with `'boom'`, `handleSavePatientEdit` logs the error and the modal state is still the open
one. -/
theorem handlers_keep_modal_on_failure_witness :
    handleSavePatientEdit (some (fun _ => Completion.thrown (.str "boom"))) (.str "payload")
        ⟨{ ControllerState.initial with
            patientEditModal := ⟨true, .obj (.ofList [("_id", .str "s1")])⟩ }, false, []⟩ =
      (Completion.returned (),
        TableWorld.logError
          ⟨{ ControllerState.initial with
              patientEditModal := ⟨true, .obj (.ofList [("_id", .str "s1")])⟩ }, false, []⟩
          "Error in handleSavePatientEdit:" (.str "boom")) ∧
    (handleSavePatientEdit (some (fun _ => Completion.thrown (.str "boom"))) (.str "payload")
        ⟨{ ControllerState.initial with
            patientEditModal := ⟨true, .obj (.ofList [("_id", .str "s1")])⟩ }, false, []⟩).2.ctrl.patientEditModal
      = (⟨{ ControllerState.initial with
            patientEditModal := ⟨true, .obj (.ofList [("_id", .str "s1")])⟩ }, false, []⟩ :
          TableWorld).ctrl.patientEditModal :=
  (handlers_keep_modal_on_failure .nil .nil
    ⟨{ ControllerState.initial with
        patientEditModal := ⟨true, .obj (.ofList [("_id", .str "s1")])⟩ }, false, []⟩).1
    (fun _ => Completion.thrown (.str "boom")) (.str "payload") (.str "boom") rfl

/-! ## Date and time formatting -/

/-- C2 (as the code behaves): a missing input (`null`, `undefined`, the empty string) gives
the dash from both formatters on every host; a non-empty string that the host's parser
rejects does not: the Invalid Date is formatted field by field, giving `NaN/NaN/NaN` and
`NaN:NaN:NaN`. Neither function throws (both are total). -/
theorem formatDate_formatTime_missing_or_malformed (host : DateHost) :
    (formatDate host .null = "-" ∧ formatDate host .undefined = "-" ∧
      formatDate host (.str "") = "-") ∧
    (formatTime host .null = "-" ∧ formatTime host .undefined = "-" ∧
      formatTime host (.str "") = "-") ∧
    (∀ s : String, s ≠ "" → host.parse s = none →
      formatDate host (.str s) = "NaN/NaN/NaN" ∧ formatTime host (.str s) = "NaN:NaN:NaN") := by
  refine ⟨⟨rfl, rfl, rfl⟩, ⟨rfl, rfl, rfl⟩, ?_⟩
  intro s hs hp
  have ht : (JSValue.str s).truthy = true := by simp [JSValue.truthy, hs]
  constructor
  · simp only [formatDate, ht, newDate, hp]
    rfl
  · simp only [formatTime, ht, newDate, hp]
    rfl

/-- Witness for C2: on the ISO host, `'not-a-date'` is non-empty and rejected by the parser,
and it is formatted as `NaN/NaN/NaN` and `NaN:NaN:NaN`. -/
theorem formatDate_formatTime_not_a_date :
    formatDate (isoHost 0) (.str "not-a-date") = "NaN/NaN/NaN" ∧
    formatTime (isoHost 0) (.str "not-a-date") = "NaN:NaN:NaN" :=
  (formatDate_formatTime_missing_or_malformed (isoHost 0)).2.2 "not-a-date" (by decide)
    (by decide)

/-! ## Status palette and labels -/

/-- C3: `getStatusColor` is total; each of the twelve recognised statuses gets its own
style string from the table, none of them the neutral default; every other value (an
unrecognised string, `null`, `undefined`, anything else) gets the neutral default. -/
theorem getStatusColor_total :
    (getStatusColor (.str "new_study_received") = "bg-blue-100 text-blue-700 border border-blue-200" ∧
     getStatusColor (.str "pending_assignment") = "bg-yellow-100 text-yellow-700 border border-yellow-200" ∧
     getStatusColor (.str "assigned_to_doctor") = "bg-purple-100 text-purple-700 border border-purple-200" ∧
     getStatusColor (.str "doctor_opened_report") = "bg-indigo-100 text-indigo-700 border border-indigo-200" ∧
     getStatusColor (.str "report_in_progress") = "bg-cyan-100 text-cyan-700 border border-cyan-200" ∧
     getStatusColor (.str "report_drafted") = "bg-teal-100 text-teal-700 border border-teal-200" ∧
     getStatusColor (.str "report_finalized") = "bg-emerald-100 text-emerald-700 border border-emerald-200" ∧
     getStatusColor (.str "final_report_downloaded") = "bg-green-100 text-green-700 border border-green-200" ∧
     getStatusColor (.str "verification_in_progress") = "bg-orange-100 text-orange-700 border border-orange-200" ∧
     getStatusColor (.str "report_verified") = "bg-green-100 text-green-700 border border-green-200" ∧
     getStatusColor (.str "report_rejected") = "bg-rose-100 text-rose-700 border border-rose-200" ∧
     getStatusColor (.str "archived") = "bg-slate-100 text-slate-700 border border-slate-200") ∧
    (∀ s ∈ recognisedStatuses,
      getStatusColor (.str s) ≠ "bg-gray-100 text-gray-700 border border-gray-200") ∧
    (∀ v : JSValue, (∀ s ∈ recognisedStatuses, v ≠ .str s) →
      getStatusColor v = "bg-gray-100 text-gray-700 border border-gray-200") ∧
    getStatusColor .null = "bg-gray-100 text-gray-700 border border-gray-200" ∧
    getStatusColor .undefined = "bg-gray-100 text-gray-700 border border-gray-200" := by
  refine ⟨by decide, by decide, ?_, by decide, by decide⟩
  intro v h
  obtain ⟨h1, h2, h3, h4, h5, h6, h7, h8, h9, h10, h11, h12⟩ := unrecognised_cases v h
  simp [getStatusColor, strictEqStr_iff, h1, h2, h3, h4, h5, h6, h7, h8, h9, h10, h11, h12]

/-- Witness for C3: the unrecognised string `'on_hold'` gets the neutral default. -/
theorem getStatusColor_total_witness :
    getStatusColor (.str "on_hold") = "bg-gray-100 text-gray-700 border border-gray-200" :=
  getStatusColor_total.2.2.1 (.str "on_hold") (by simp [recognisedStatuses])

/-- C4: `formatWorkflowStatus` is total; each of the twelve recognised statuses gets its
short label; an unrecognised non-empty string is returned unchanged; an absent status
(`null`, `undefined`, the empty string) gives `'Unknown'`. -/
theorem formatWorkflowStatus_total :
    (formatWorkflowStatus (.str "new_study_received") = .str "New" ∧
     formatWorkflowStatus (.str "pending_assignment") = .str "Pending" ∧
     formatWorkflowStatus (.str "assigned_to_doctor") = .str "Assigned" ∧
     formatWorkflowStatus (.str "doctor_opened_report") = .str "Opened" ∧
     formatWorkflowStatus (.str "report_in_progress") = .str "In Progress" ∧
     formatWorkflowStatus (.str "report_drafted") = .str "Drafted" ∧
     formatWorkflowStatus (.str "report_finalized") = .str "Finalized" ∧
     formatWorkflowStatus (.str "final_report_downloaded") = .str "Downloaded" ∧
     formatWorkflowStatus (.str "verification_in_progress") = .str "Verifying" ∧
     formatWorkflowStatus (.str "report_verified") = .str "Verified" ∧
     formatWorkflowStatus (.str "report_rejected") = .str "Rejected" ∧
     formatWorkflowStatus (.str "archived") = .str "Archived") ∧
    (∀ s : String, s ∉ recognisedStatuses → s ≠ "" → formatWorkflowStatus (.str s) = .str s) ∧
    formatWorkflowStatus .null = .str "Unknown" ∧
    formatWorkflowStatus .undefined = .str "Unknown" ∧
    formatWorkflowStatus (.str "") = .str "Unknown" := by
  refine ⟨⟨rfl, rfl, rfl, rfl, rfl, rfl, rfl, rfl, rfl, rfl, rfl, rfl⟩, ?_, rfl, rfl, rfl⟩
  intro s hs hne
  have h : ∀ t ∈ recognisedStatuses, JSValue.str s ≠ .str t := by
    intro t ht heq
    exact hs (by cases heq; exact ht)
  obtain ⟨h1, h2, h3, h4, h5, h6, h7, h8, h9, h10, h11, h12⟩ := unrecognised_cases _ h
  simp [formatWorkflowStatus, strictEqStr_iff, h1, h2, h3, h4, h5, h6, h7, h8, h9, h10, h11, h12,
    JSValue.orElse, JSValue.truthy, hne]

/-- Witness for C4: the unrecognised status `'on_hold'` is shown as it is. -/
theorem formatWorkflowStatus_total_witness :
    formatWorkflowStatus (.str "on_hold") = .str "on_hold" :=
  formatWorkflowStatus_total.2.1 "on_hold" (by simp [recognisedStatuses]) (by decide)

/-- C5 counterexample: `final_report_downloaded` and `report_verified` are two distinct
recognised statuses with the same style string, so the palette is not one-to-one. -/
theorem getStatusColor_not_injective :
    "final_report_downloaded" ∈ recognisedStatuses ∧ "report_verified" ∈ recognisedStatuses ∧
    "final_report_downloaded" ≠ "report_verified" ∧
    getStatusColor (.str "final_report_downloaded") = getStatusColor (.str "report_verified") := by
  decide

/-- C5 amended: on the twelve recognised statuses the label map is one-to-one, and the
palette map is one-to-one except for the single pair `final_report_downloaded` /
`report_verified`, which share one style string. -/
theorem status_table_injective_up_to_green (s1 s2 : String)
    (h1 : s1 ∈ recognisedStatuses) (h2 : s2 ∈ recognisedStatuses) (hne : s1 ≠ s2) :
    formatWorkflowStatus (.str s1) ≠ formatWorkflowStatus (.str s2) ∧
    (getStatusColor (.str s1) = getStatusColor (.str s2) ↔
      (s1 = "final_report_downloaded" ∧ s2 = "report_verified") ∨
      (s1 = "report_verified" ∧ s2 = "final_report_downloaded")) := by
  simp only [recognisedStatuses, List.mem_cons, List.mem_singleton, List.not_mem_nil,
    or_false] at h1 h2
  rcases h1 with rfl | rfl | rfl | rfl | rfl | rfl | rfl | rfl | rfl | rfl | rfl | rfl <;>
  rcases h2 with rfl | rfl | rfl | rfl | rfl | rfl | rfl | rfl | rfl | rfl | rfl | rfl <;>
  first
  | exact absurd rfl hne
  | (refine ⟨?_, ?_⟩
     · simp [formatWorkflowStatus, JSValue.strictEqStr]
     · decide)

/-- Witness for C5 amended: `report_drafted` and `archived` differ in label and in style. -/
theorem status_table_injective_up_to_green_witness :
    formatWorkflowStatus (.str "report_drafted") ≠ formatWorkflowStatus (.str "archived") ∧
    (getStatusColor (.str "report_drafted") = getStatusColor (.str "archived") ↔
      ("report_drafted" = "final_report_downloaded" ∧ "archived" = "report_verified") ∨
      ("report_drafted" = "report_verified" ∧ "archived" = "final_report_downloaded")) :=
  status_table_injective_up_to_green "report_drafted" "archived" (by decide) (by decide)
    (by decide)

/-! ## Table states and rows -/

/-- C6: the component renders exactly one of three states, chosen by `loading` and
`studies.length` alone: the loading indicator whenever `loading` is set (no header, rows
or footer, whatever `studies` holds); the empty-state message when `loading` is clear and
there is no study (no footer); otherwise the table with its header, one row per study and
the footer. -/
theorem doctorWorklistTable_three_states (studies : List Study) (loading : Bool)
    (pagination : Pagination) (ctrl : ControllerState) :
    (loading = true →
      DoctorWorklistTable studies loading pagination ctrl = .loadingIndicator ∧
      (DoctorWorklistTable studies loading pagination ctrl).header = [] ∧
      (DoctorWorklistTable studies loading pagination ctrl).rows = [] ∧
      (DoctorWorklistTable studies loading pagination ctrl).footer = none) ∧
    (loading = false → studies.length = 0 →
      DoctorWorklistTable studies loading pagination ctrl = .emptyState ∧
      (DoctorWorklistTable studies loading pagination ctrl).header = [] ∧
      (DoctorWorklistTable studies loading pagination ctrl).rows = [] ∧
      (DoctorWorklistTable studies loading pagination ctrl).footer = none) ∧
    (loading = false → studies.length ≠ 0 →
      DoctorWorklistTable studies loading pagination ctrl =
        .table headerColumns (studyRows studies)
          (some ⟨pagination.currentPage, pagination.totalPages, pagination.totalRecords,
            pagination.recordsPerPage, studies.length, false⟩)
          (mountedModals ctrl) ∧
      (DoctorWorklistTable studies loading pagination ctrl).header.length = 19 ∧
      (DoctorWorklistTable studies loading pagination ctrl).rows.length = studies.length ∧
      (DoctorWorklistTable studies loading pagination ctrl).footer.isSome = true) ∧
    (∀ (studies2 : List Study) (pagination2 : Pagination) (ctrl2 : ControllerState),
      studies2.length = studies.length →
      (DoctorWorklistTable studies2 loading pagination2 ctrl2).state =
        (DoctorWorklistTable studies loading pagination ctrl).state) := by
  refine ⟨?_, ?_, ?_, ?_⟩
  · intro hl
    subst hl
    exact ⟨rfl, rfl, rfl, rfl⟩
  · intro hl hz
    subst hl
    simp [DoctorWorklistTable, hz, Rendered.header, Rendered.rows, Rendered.footer]
  · intro hl hz
    subst hl
    have hpos : 0 < studies.length := Nat.pos_of_ne_zero hz
    simp [DoctorWorklistTable, hz, hpos, Rendered.header, Rendered.rows, Rendered.footer,
      studyRows, headerColumns]
  · intro studies2 pagination2 ctrl2 hlen
    cases loading
    · by_cases hz : studies.length = 0
      · have hz2 : studies2.length = 0 := by omega
        simp [DoctorWorklistTable, hz, hz2, Rendered.state]
      · have hz2 : studies2.length ≠ 0 := by omega
        simp [DoctorWorklistTable, hz, hz2, Rendered.state]
    · rfl

/-- Witness for C6: with `loading` set and one study present, the loading indicator is
rendered, without header, rows or footer. -/
theorem doctorWorklistTable_three_states_witness :
    DoctorWorklistTable [.ofList [("_id", .str "a")]] true Pagination.default
        ControllerState.initial = .loadingIndicator ∧
    (DoctorWorklistTable [.ofList [("_id", .str "a")]] true Pagination.default
        ControllerState.initial).header = [] ∧
    (DoctorWorklistTable [.ofList [("_id", .str "a")]] true Pagination.default
        ControllerState.initial).rows = [] ∧
    (DoctorWorklistTable [.ofList [("_id", .str "a")]] true Pagination.default
        ControllerState.initial).footer = none :=
  (doctorWorklistTable_three_states [.ofList [("_id", .str "a")]] true Pagination.default
    ControllerState.initial).1 rfl

/-- C7: the rendered rows are the studies in input order: with `loading` clear and a
non-empty list there are `studies.length` rows and the row at position `i` carries
`studies[i]`, index `i` and key `studies[i]._id`; in the loading and empty states there is
no row. Nothing is sorted, dropped or merged. -/
theorem rows_follow_input_order (studies : List Study) (loading : Bool)
    (pagination : Pagination) (ctrl : ControllerState) :
    (loading = false → studies ≠ [] →
      (DoctorWorklistTable studies loading pagination ctrl).rows.length = studies.length) ∧
    (loading = true ∨ studies = [] →
      (DoctorWorklistTable studies loading pagination ctrl).rows.length = 0) ∧
    (loading = false → ∀ (i : Nat) (h : i < studies.length),
      (DoctorWorklistTable studies loading pagination ctrl).rows[i]? =
        some ⟨(studies.get ⟨i, h⟩).get "_id", studies.get ⟨i, h⟩, i⟩) ∧
    (loading = false →
      (DoctorWorklistTable studies loading pagination ctrl).rows.map (fun r => r.study) =
        studies) := by
  have hrows : loading = false →
      (DoctorWorklistTable studies loading pagination ctrl).rows = studyRows studies := by
    intro hl
    subst hl
    by_cases hz : studies.length = 0
    · have hnil : studies = [] := List.length_eq_zero.mp hz
      subst hnil
      rfl
    · simp [DoctorWorklistTable, hz, Rendered.rows]
  refine ⟨?_, ?_, ?_, ?_⟩
  · intro hl _
    rw [hrows hl]
    simp [studyRows]
  · intro h
    rcases h with hl | hnil
    · subst hl
      rfl
    · subst hnil
      cases loading <;> rfl
  · intro hl i h
    rw [hrows hl]
    simp [studyRows, List.getElem?_mapIdx, List.getElem?_eq_getElem h]
  · intro hl
    rw [hrows hl]
    apply List.ext_getElem?
    intro i
    simp only [studyRows, List.getElem?_map, List.getElem?_mapIdx, Option.map_map]
    cases studies[i]? <;> rfl

/-- Witness for C7: two studies given in the order `b`, `a` are rendered in that order,
the second row carrying the second study, index 1 and key `'a'`. -/
theorem rows_follow_input_order_witness :
    (DoctorWorklistTable [.ofList [("_id", .str "b")], .ofList [("_id", .str "a")]] false
        Pagination.default ControllerState.initial).rows[1]? =
      some ⟨(([.ofList [("_id", .str "b")], .ofList [("_id", .str "a")]] : List Study).get
              ⟨1, by decide⟩).get "_id",
            ([.ofList [("_id", .str "b")], .ofList [("_id", .str "a")]] : List Study).get
              ⟨1, by decide⟩, 1⟩ :=
  (rows_follow_input_order [.ofList [("_id", .str "b")], .ofList [("_id", .str "a")]] false
    Pagination.default ControllerState.initial).2.2.1 rfl 1 (by decide)

/-! ## Row cells -/

/-- The `&&` of two values is truthy exactly when both are. -/
theorem andAlso_truthy (a b : JSValue) :
    (a.andAlso b).truthy = (a.truthy && b.truthy) := by
  unfold JSValue.andAlso
  cases h : a.truthy <;> simp [h]

/-- C8 counterexample: a record with no `ageGender` field, `patientAge` `'45'` and
`patientSex` `'Male'` gets an empty AGE/SEX cell, not `'45/M'`; a record with none of the
three fields gets an empty cell, not the dash. -/
theorem ageSexCell_absent_ageGender_is_blank :
    ageSexCell (.ofList [("patientAge", .str "45"), ("patientSex", .str "Male")]) = .ok "" ∧
    ageSexCell .nil = .ok "" :=
  ⟨rfl, rfl⟩

/-- C8 amended: the AGE/SEX cell renders `ageGender` itself whenever that field is not
exactly the sentinel `'N/A'`: a string is shown as it is and a missing field leaves the
cell empty. When `ageGender` is `'N/A'` the cell falls back: if `patientAge` is present
(truthy) and `patientSex` is a non-empty string it shows the text of `patientAge`, a slash
and the first character of `patientSex`; if `patientAge` or `patientSex` is missing or
falsy it shows the dash. -/
theorem ageSexCell_sentinel_fallback (study : Study) :
    ((study.get "ageGender").strictEqStr "N/A" = false →
      ageSexCell study = renderChild (study.get "ageGender")) ∧
    (∀ s : String, s ≠ "N/A" → study.get "ageGender" = .str s → ageSexCell study = .ok s) ∧
    (study.get "ageGender" = .undefined → ageSexCell study = .ok "") ∧
    (study.get "ageGender" = .str "N/A" → (study.get "patientAge").truthy = true →
      ∀ (c : Char) (rest : List Char), study.get "patientSex" = .str (String.mk (c :: rest)) →
        ageSexCell study =
          .ok ((study.get "patientAge").toStr ++ "/" ++ String.singleton c)) ∧
    (study.get "ageGender" = .str "N/A" →
      (study.get "patientAge").truthy = false ∨ (study.get "patientSex").truthy = false →
      ageSexCell study = .ok "-") := by
  have hgen : (study.get "ageGender").strictEqStr "N/A" = false →
      ageSexCell study = renderChild (study.get "ageGender") := by
    intro h
    simp [ageSexCell, ageSexValue, h]
  refine ⟨hgen, ?_, ?_, ?_, ?_⟩
  · intro s hs hv
    rw [hgen (by simp [hv, JSValue.strictEqStr, hs]), hv]
    rfl
  · intro hv
    rw [hgen (by simp [hv, JSValue.strictEqStr]), hv]
    rfl
  · intro hv hage c rest hsex
    have hboth : ((study.get "patientAge").andAlso (study.get "patientSex")).truthy = true := by
      rw [andAlso_truthy, hage, hsex]
      simp [JSValue.truthy, String.ext_iff]
    simp [ageSexCell, ageSexValue, hv, JSValue.strictEqStr, hboth]
    simp [hsex, charAt0, renderChild]
  · intro hv hfalsy
    have hboth : ((study.get "patientAge").andAlso (study.get "patientSex")).truthy = false := by
      rw [andAlso_truthy]
      rcases hfalsy with h | h <;> simp [h]
    simp [ageSexCell, ageSexValue, hv, JSValue.strictEqStr, hboth, renderChild]

/-- Witness for C8 amended: with `ageGender` `'N/A'`, `patientAge` `'45'` and `patientSex`
`'Male'` the cell shows `'45/M'`. -/
theorem ageSexCell_sentinel_fallback_witness :
    ageSexCell (.ofList [("ageGender", .str "N/A"), ("patientAge", .str "45"),
        ("patientSex", .str "Male")]) = .ok "45/M" :=
  (ageSexCell_sentinel_fallback (.ofList [("ageGender", .str "N/A"), ("patientAge", .str "45"),
      ("patientSex", .str "Male")])).2.2.2.1 rfl rfl 'M' ['a', 'l', 'e'] rfl

/-- C9 counterexample: a record whose `clinicalHistory` is the number 7 is none of the
listed cases, yet the cell shows `7`, not the dash; a wrapper whose inner value is the
number 5 shows `5`; and a wrapper whose inner value is itself an object is refused as a
child, so the cell is not rendered at all. -/
theorem clinicalHistoryCell_other_shapes :
    clinicalHistoryCell (.ofList [("clinicalHistory", .num 7)]) = .ok "7" ∧
    clinicalHistoryCell
        (.ofList [("clinicalHistory", .obj (.ofList [("clinicalHistory", .num 5)]))])
      = .ok "5" ∧
    clinicalHistoryCell
        (.ofList [("clinicalHistory",
          .obj (.ofList [("clinicalHistory",
            .obj (.ofList [("clinicalHistory", .str "deep")]))]))])
      = .error invalidChildError :=
  ⟨rfl, rfl, rfl⟩

/-- C9 amended: the CLINICAL HISTORY cell shows a non-empty string `clinicalHistory` as it
is, shows the inner `clinicalHistory` string of a wrapper object when that string is
non-empty, and shows the dash when `clinicalHistory` is `null`, `undefined` or the empty
string, or a wrapper object whose inner field is missing, `null` or empty. For a wrapper
object whose inner field is missing, `null` or a string the text is therefore never
`[object Object]`, unless that is the inner string itself. -/
theorem clinicalHistoryCell_shapes (study : Study) :
    (∀ s : String, s ≠ "" → study.get "clinicalHistory" = .str s →
      clinicalHistoryCell study = .ok s) ∧
    (∀ (o : JSProps) (s : String), s ≠ "" → study.get "clinicalHistory" = .obj o →
      o.get "clinicalHistory" = .str s → clinicalHistoryCell study = .ok s) ∧
    (study.get "clinicalHistory" = .null ∨ study.get "clinicalHistory" = .undefined ∨
        study.get "clinicalHistory" = .str "" →
      clinicalHistoryCell study = .ok "-") ∧
    (∀ o : JSProps, study.get "clinicalHistory" = .obj o →
      o.get "clinicalHistory" = .undefined ∨ o.get "clinicalHistory" = .null ∨
        o.get "clinicalHistory" = .str "" →
      clinicalHistoryCell study = .ok "-") ∧
    (∀ o : JSProps, study.get "clinicalHistory" = .obj o →
      o.get "clinicalHistory" = .undefined ∨ o.get "clinicalHistory" = .null ∨
        (∃ s : String, s ≠ "[object Object]" ∧ o.get "clinicalHistory" = .str s) →
      clinicalHistoryCell study ≠ .ok "[object Object]") := by
  have hobj : ∀ (o : JSProps), study.get "clinicalHistory" = .obj o →
      clinicalHistoryCell study =
        renderChild ((o.get "clinicalHistory").orElse (.str "-")) := by
    intro o ho
    simp [clinicalHistoryCell, clinicalHistoryValue, ho, JSValue.typeOf, JSValue.isNull,
      JSValue.getProp]
  have hstr : ∀ s : String, s ≠ "" →
      renderChild ((JSValue.str s).orElse (.str "-")) = .ok s := by
    intro s hs
    simp [JSValue.orElse, JSValue.truthy, hs, renderChild]
  refine ⟨?_, ?_, ?_, ?_, ?_⟩
  · intro s hs hv
    simp only [clinicalHistoryCell, clinicalHistoryValue, hv]
    simpa [JSValue.typeOf] using hstr s hs
  · intro o s hs ho hin
    rw [hobj o ho, hin]
    exact hstr s hs
  · intro h
    rcases h with hv | hv | hv <;>
      simp [clinicalHistoryCell, clinicalHistoryValue, hv, JSValue.typeOf, JSValue.isNull,
        JSValue.orElse, JSValue.truthy, renderChild]
  · intro o ho hin
    rw [hobj o ho]
    rcases hin with hv | hv | hv <;> simp [hv, JSValue.orElse, JSValue.truthy, renderChild]
  · intro o ho hin
    rw [hobj o ho]
    rcases hin with hv | hv | ⟨s, hs, hv⟩
    · simp [hv, JSValue.orElse, JSValue.truthy, renderChild]
    · simp [hv, JSValue.orElse, JSValue.truthy, renderChild]
    · by_cases he : s = ""
      · subst he
        simp [hv, JSValue.orElse, JSValue.truthy, renderChild]
      · rw [hv, hstr s he]
        intro h
        injection h with h
        exact hs h

/-- Witness for C9 amended: the record whose `clinicalHistory` wraps the string `'Hx of asthma'`
shows `'Hx of asthma'`. -/
theorem clinicalHistoryCell_shapes_witness :
    clinicalHistoryCell
        (.ofList [("clinicalHistory", .obj (.ofList [("clinicalHistory", .str "Hx of asthma")]))])
      = .ok "Hx of asthma" :=
  (clinicalHistoryCell_shapes
      (.ofList [("clinicalHistory", .obj (.ofList [("clinicalHistory", .str "Hx of asthma")]))])).2.1
    (.ofList [("clinicalHistory", .str "Hx of asthma")]) "Hx of asthma" (by decide) rfl rfl

/-- C10 counterexample: the rejected record with only `workflowStatus`, `priority` and
`patientName` gets the rejection marker with an empty text (and the dash as tooltip), not
a reason; the same record written with the key `status` is not rejected for the code and
gets the dash. -/
theorem rejectionReasonCell_rejected_without_notes_is_empty :
    rejectionReasonCell (.ofList [("workflowStatus", .str "report_rejected"),
        ("priority", .str "URGENT"), ("patientName", .str "J Doe")])
      = .ok (.reason (.str "-") "") ∧
    rejectionReasonCell (.ofList [("status", .str "report_rejected"),
        ("priority", .str "URGENT"), ("patientName", .str "J Doe")])
      = .ok .dash :=
  ⟨rfl, rfl⟩

/-- C10 amended: for a record whose `workflowStatus` is `'report_rejected'` the cell carries
the rejection marker; its text is the record's `verificationNotes` when that is a string
and is empty when the record has none (`undefined` or `null`); its tooltip is
`reportInfo.verificationInfo.rejectionReason` when `reportInfo` and `verificationInfo` are
objects and that reason is present (truthy), and the dash when `reportInfo` is missing,
`verificationInfo` is missing, or the reason is missing or empty. For every record with
another status the cell shows the dash. -/
theorem rejectionReasonCell_shows_verificationNotes (study : Study) :
    (study.get "workflowStatus" ≠ .str "report_rejected" →
      rejectionReasonCell study = .ok .dash) ∧
    (study.get "workflowStatus" = .str "report_rejected" →
      ∀ s : String, study.get "verificationNotes" = .str s →
        rejectionReasonCell study = .ok (.reason (rejectionReason study) s)) ∧
    (study.get "workflowStatus" = .str "report_rejected" →
      study.get "verificationNotes" = .undefined ∨ study.get "verificationNotes" = .null →
        rejectionReasonCell study = .ok (.reason (rejectionReason study) "")) ∧
    (∀ (reportInfo verificationInfo : JSProps),
      study.get "reportInfo" = .obj reportInfo →
      reportInfo.get "verificationInfo" = .obj verificationInfo →
      ((verificationInfo.get "rejectionReason").truthy = true →
        rejectionReason study = verificationInfo.get "rejectionReason") ∧
      ((verificationInfo.get "rejectionReason").truthy = false →
        rejectionReason study = .str "-")) ∧
    (study.get "reportInfo" = .undefined ∨ study.get "reportInfo" = .null →
      rejectionReason study = .str "-") ∧
    (∀ reportInfo : JSProps, study.get "reportInfo" = .obj reportInfo →
      reportInfo.get "verificationInfo" = .undefined ∨
        reportInfo.get "verificationInfo" = .null →
      rejectionReason study = .str "-") := by
  refine ⟨?_, ?_, ?_, ?_, ?_, ?_⟩
  · intro h
    have hr : isRejected study = false := by
      cases hb : isRejected study
      · rfl
      · exact absurd ((strictEqStr_iff _ _).mp hb) h
    simp [rejectionReasonCell, hr]
  · intro h s hn
    have hr : isRejected study = true := (strictEqStr_iff _ _).mpr h
    simp [rejectionReasonCell, hr, hn, renderChild]
  · intro h hn
    have hr : isRejected study = true := (strictEqStr_iff _ _).mpr h
    rcases hn with hn | hn <;> simp [rejectionReasonCell, hr, hn, renderChild]
  · intro reportInfo verificationInfo h1 h2
    constructor
    · intro ht
      simp [rejectionReason, h1, h2, JSValue.getPropOpt, JSValue.orElse, ht]
    · intro ht
      simp [rejectionReason, h1, h2, JSValue.getPropOpt, JSValue.orElse, ht]
  · intro h
    rcases h with h | h <;>
      simp [rejectionReason, h, JSValue.getPropOpt, JSValue.orElse, JSValue.truthy]
  · intro reportInfo h1 h2
    rcases h2 with h2 | h2 <;>
      simp [rejectionReason, h1, h2, JSValue.getPropOpt, JSValue.orElse, JSValue.truthy]

/-- Witness for C10 amended: a rejected record with `verificationNotes` `'Blurred image'`
and the reason `'Motion artefact'` under `reportInfo.verificationInfo` shows the notes as
text and the reason as tooltip. -/
theorem rejectionReasonCell_shows_verificationNotes_witness :
    rejectionReasonCell (.ofList [("workflowStatus", .str "report_rejected"),
        ("verificationNotes", .str "Blurred image"),
        ("reportInfo", .obj (.ofList [("verificationInfo",
          .obj (.ofList [("rejectionReason", .str "Motion artefact")]))]))])
      = .ok (.reason (.str "Motion artefact") "Blurred image") :=
  (rejectionReasonCell_shows_verificationNotes (.ofList [("workflowStatus", .str "report_rejected"),
      ("verificationNotes", .str "Blurred image"),
      ("reportInfo", .obj (.ofList [("verificationInfo",
        .obj (.ofList [("rejectionReason", .str "Motion artefact")]))]))])).2.1
    rfl "Blurred image" rfl

/-! ## Patient-edit draft -/

/-- The draft computed from a study whose `clinicalHistory` is not `null`: the effect
completes, with these fields. -/
theorem initFormData_ok (study : JSProps) (formData : EditDraft)
    (h : study.get "clinicalHistory" ≠ .null) :
    PatientEditModal.initFormData (.obj study) true formData = .ok
      { patientName := (study.get "patientName").orElse (.str "")
        patientAge := (study.get "patientAge").orElse (.str "")
        patientGender :=
          ((study.get "patientGender").orElse (study.get "patientSex")).orElse (.str "")
        studyName :=
          ((study.get "studyDescription").orElse (study.get "studyName")).orElse (.str "")
        referringPhysician :=
          ((study.get "referringPhysicianName").orElse
            (study.get "referringPhysician")).orElse (.str "")
        accessionNumber := (study.get "accessionNumber").orElse (.str "")
        clinicalHistory :=
          if (study.get "clinicalHistory").typeOf == "object" then
            (study.get "clinicalHistory").getPropOpt "clinicalHistory"
          else (study.get "clinicalHistory").orElse (.str "") } := by
  cases hch : study.get "clinicalHistory" with
  | null => exact absurd hch h
  | undefined =>
    simp [PatientEditModal.initFormData, JSValue.truthy, JSValue.getProp, hch, JSValue.typeOf,
      bind, Except.bind, pure, Except.pure]
  | bool b =>
    simp [PatientEditModal.initFormData, JSValue.truthy, JSValue.getProp, hch, JSValue.typeOf,
      bind, Except.bind, pure, Except.pure]
  | nan =>
    simp [PatientEditModal.initFormData, JSValue.truthy, JSValue.getProp, hch, JSValue.typeOf,
      bind, Except.bind, pure, Except.pure]
  | num n =>
    simp [PatientEditModal.initFormData, JSValue.truthy, JSValue.getProp, hch, JSValue.typeOf,
      bind, Except.bind, pure, Except.pure]
  | str t =>
    simp [PatientEditModal.initFormData, JSValue.truthy, JSValue.getProp, hch, JSValue.typeOf,
      bind, Except.bind, pure, Except.pure]
  | obj fields =>
    simp [PatientEditModal.initFormData, JSValue.truthy, JSValue.getProp, hch, JSValue.typeOf,
      bind, Except.bind, pure, Except.pure, JSValue.getPropOpt]
  | arr items =>
    simp [PatientEditModal.initFormData, JSValue.truthy, JSValue.getProp, hch, JSValue.typeOf,
      bind, Except.bind, pure, Except.pure, JSValue.getPropOpt]

/-- A string or missing value, defaulted to `''`, is a string. -/
theorem orElse_empty_isString (a : JSValue) (h : a.isStringOrAbsent = true) :
    (a.orElse (.str "")).isString = true := by
  cases a <;> simp [JSValue.isStringOrAbsent] at h <;>
    simp [JSValue.orElse, JSValue.truthy, JSValue.isString]
  rename_i t
  by_cases ht : t = "" <;> simp [ht, JSValue.isString]

/-- The first truthy of two string or missing values, defaulted to `''`, is a string. -/
theorem orElse_orElse_isString (a b : JSValue) (ha : a.isStringOrAbsent = true)
    (hb : b.isStringOrAbsent = true) :
    ((a.orElse b).orElse (.str "")).isString = true := by
  by_cases hta : a.truthy = true
  · have : a.orElse b = a := by simp [JSValue.orElse, hta]
    rw [this]
    exact orElse_empty_isString a ha
  · have : a.orElse b = b := by simp [JSValue.orElse, hta]
    rw [this]
    exact orElse_empty_isString b hb

/-- C11 counterexample: opening the edit form on the study with `_id` `'s1'`, a patient
name and `clinicalHistory: null` does not complete: the effect throws a `TypeError`,
because `typeof null` is `'object'` and the inner field is read without a null test. -/
theorem initFormData_null_history_throws :
    PatientEditModal.initFormData
        (.obj (.ofList [("_id", .str "s1"), ("patientName", .str "J Doe"),
          ("clinicalHistory", .null)]))
        true PatientEditModal.initialFormData =
      .error (typeError "Cannot read properties of null (reading clinicalHistory)") :=
  rfl

/-- C11 amended: filling the draft from a study completes without error for every record
whose `clinicalHistory` is not `null`. Each draft field other than `clinicalHistory` is the
first truthy of its source fields, `''` when there is none. The draft's `clinicalHistory`
is the record's string when that is a non-empty string, `''` when it is missing or empty,
and the inner string when it is a wrapper object carrying one. When every source field is
a string or missing and `clinicalHistory` is missing, a string, or a wrapper carrying an
inner string, every draft field is a string. With the form closed the draft is left as it
is. -/
theorem initFormData_completes (study : JSProps) (formData : EditDraft) :
    (study.get "clinicalHistory" ≠ .null →
      ∃ d : EditDraft, PatientEditModal.initFormData (.obj study) true formData = .ok d ∧
        d.patientName = (study.get "patientName").orElse (.str "") ∧
        d.patientAge = (study.get "patientAge").orElse (.str "") ∧
        d.patientGender =
          ((study.get "patientGender").orElse (study.get "patientSex")).orElse (.str "") ∧
        d.studyName =
          ((study.get "studyDescription").orElse (study.get "studyName")).orElse (.str "") ∧
        d.referringPhysician =
          ((study.get "referringPhysicianName").orElse
            (study.get "referringPhysician")).orElse (.str "") ∧
        d.accessionNumber = (study.get "accessionNumber").orElse (.str "") ∧
        (∀ t : String, t ≠ "" → study.get "clinicalHistory" = .str t →
          d.clinicalHistory = .str t) ∧
        (study.get "clinicalHistory" = .undefined ∨ study.get "clinicalHistory" = .str "" →
          d.clinicalHistory = .str "") ∧
        (∀ (o : JSProps) (t : String), study.get "clinicalHistory" = .obj o →
          o.get "clinicalHistory" = .str t → d.clinicalHistory = .str t) ∧
        ((∀ key ∈ draftSources, (study.get key).isStringOrAbsent = true) →
          (study.get "clinicalHistory" = .undefined ∨
            (∃ t : String, study.get "clinicalHistory" = .str t) ∨
            (∃ (o : JSProps) (t : String), study.get "clinicalHistory" = .obj o ∧
              o.get "clinicalHistory" = .str t)) →
          d.allStrings = true)) ∧
    PatientEditModal.initFormData (.obj study) false formData = .ok formData := by
  refine ⟨?_, ?_⟩
  · intro hnull
    refine ⟨_, initFormData_ok study formData hnull, rfl, rfl, rfl, rfl, rfl, rfl, ?_, ?_, ?_, ?_⟩
    · intro t ht hv
      simp [hv, JSValue.typeOf, JSValue.orElse, JSValue.truthy, ht]
    · intro hv
      rcases hv with hv | hv <;> simp [hv, JSValue.typeOf, JSValue.orElse, JSValue.truthy]
    · intro o t hv hin
      simp [hv, JSValue.typeOf, JSValue.getPropOpt, hin]
    · intro hsrc hch
      have hs : ∀ key ∈ draftSources, (study.get key).isStringOrAbsent = true := hsrc
      simp only [draftSources, List.mem_cons, List.mem_singleton, forall_eq_or_imp, forall_eq,
        List.not_mem_nil, false_imp_iff, implies_true, and_true] at hs
      obtain ⟨h1, h2, h3, h4, h5, h6, h7, h8, h9⟩ := hs
      have hc : (if (study.get "clinicalHistory").typeOf == "object" then
            (study.get "clinicalHistory").getPropOpt "clinicalHistory"
          else (study.get "clinicalHistory").orElse (.str "")).isString = true := by
        rcases hch with hv | ⟨t, hv⟩ | ⟨o, t, hv, hin⟩
        · simp [hv, JSValue.typeOf, JSValue.orElse, JSValue.truthy, JSValue.isString]
        · by_cases ht : t = "" <;>
            simp [hv, JSValue.typeOf, JSValue.orElse, JSValue.truthy, JSValue.isString, ht]
        · simp [hv, JSValue.typeOf, JSValue.getPropOpt, hin, JSValue.isString]
      simp only [EditDraft.allStrings, orElse_empty_isString _ h1, orElse_empty_isString _ h2,
        orElse_orElse_isString _ _ h3 h4, orElse_orElse_isString _ _ h5 h6,
        orElse_orElse_isString _ _ h7 h8, orElse_empty_isString _ h9, hc, Bool.and_self]
  · simp [PatientEditModal.initFormData, pure, Except.pure]

/-- Witness for C11 amended: a study that wraps its history in an object gives a draft of
strings with the inner string as `clinicalHistory`. -/
theorem initFormData_completes_witness :
    ∃ d : EditDraft,
      PatientEditModal.initFormData
          (.obj (.ofList [("_id", .str "s1"), ("patientName", .str "J Doe"),
            ("clinicalHistory", .obj (.ofList [("clinicalHistory", .str "Hx of asthma")]))]))
          true PatientEditModal.initialFormData = .ok d ∧
      d.patientName = .str "J Doe" ∧ d.clinicalHistory = .str "Hx of asthma" := by
  obtain ⟨d, hd, hname, _, _, _, _, _, _, _, hwrap, _⟩ :=
    (initFormData_completes
      (.ofList [("_id", .str "s1"), ("patientName", .str "J Doe"),
        ("clinicalHistory", .obj (.ofList [("clinicalHistory", .str "Hx of asthma")]))])
      PatientEditModal.initialFormData).1 (by intro h; cases h)
  exact ⟨d, hd, hname, hwrap _ "Hx of asthma" rfl rfl⟩

/-! ## Modal state -/

/-- One event preserves the invariant that a hidden modal holds no payload. -/
theorem hiddenIsEmpty_step (c : ControllerState) (a : ControllerAction)
    (h : c.hiddenIsEmpty) : (c.step a).hiddenIsEmpty := by
  obtain ⟨h1, h2, h3, h4, h5⟩ := h
  unfold ControllerState.hiddenIsEmpty
  cases a <;>
    refine ⟨?_, ?_, ?_, ?_, ?_⟩ <;>
    first
    | exact h1
    | exact h2
    | exact h3
    | exact h4
    | exact h5
    | (intro hs; exact Bool.noConfusion hs)
    | (intro _; rfl)
    | (intro _; exact ⟨rfl, rfl⟩)

/-- Any sequence of events preserves the invariant. -/
theorem hiddenIsEmpty_run (actions : List ControllerAction) (c : ControllerState)
    (h : c.hiddenIsEmpty) : (c.run actions).hiddenIsEmpty := by
  induction actions generalizing c with
  | nil => exact h
  | cons a rest ih => exact ih (c.step a) (hiddenIsEmpty_step c a h)

/-- A submission of the edit form touches no modal state but the patient-edit one. -/
theorem submitPatientEdit_frame (service : Option UpdateService) (formData : JSProps)
    (w : TableWorld) :
    (submitPatientEdit service formData w).2.ctrl.detailedView = w.ctrl.detailedView ∧
    (submitPatientEdit service formData w).2.ctrl.reportModal = w.ctrl.reportModal ∧
    (submitPatientEdit service formData w).2.ctrl.studyNotes = w.ctrl.studyNotes ∧
    (submitPatientEdit service formData w).2.ctrl.timelineModal = w.ctrl.timelineModal := by
  unfold submitPatientEdit PatientEditModal.handleSubmit
  cases JSValue.getProp w.ctrl.patientEditModal.study "_id" with
  | error e => exact ⟨rfl, rfl, rfl, rfl⟩
  | ok studyId =>
    simp only [handleSavePatientEdit]
    cases callUpdate service (JSValue.obj (formData.set "studyId" studyId)) <;>
      exact ⟨rfl, rfl, rfl, rfl⟩

/-- C12: an open handler or close callback changes only the state of its own modal kind;
the four other tuples are left as they were, for every controller state. The same holds
for a whole submission of the edit form. Hence opening a second kind leaves the first one
visible. -/
theorem modal_actions_frame (c : ControllerState) (a : ControllerAction) :
    (a.kind ≠ .detailedView → (c.step a).detailedView = c.detailedView) ∧
    (a.kind ≠ .report → (c.step a).reportModal = c.reportModal) ∧
    (a.kind ≠ .studyNotes → (c.step a).studyNotes = c.studyNotes) ∧
    (a.kind ≠ .patientEdit → (c.step a).patientEditModal = c.patientEditModal) ∧
    (a.kind ≠ .timeline → (c.step a).timelineModal = c.timelineModal) ∧
    (∀ (service : Option UpdateService) (formData : JSProps) (console : List ConsoleEntry)
        (editLoading : Bool),
      (submitPatientEdit service formData ⟨c, editLoading, console⟩).2.ctrl.detailedView
        = c.detailedView ∧
      (submitPatientEdit service formData ⟨c, editLoading, console⟩).2.ctrl.reportModal
        = c.reportModal ∧
      (submitPatientEdit service formData ⟨c, editLoading, console⟩).2.ctrl.studyNotes
        = c.studyNotes ∧
      (submitPatientEdit service formData ⟨c, editLoading, console⟩).2.ctrl.timelineModal
        = c.timelineModal) ∧
    (∀ (s1 s2 : Study),
      ((c.step (.showTimeline s1)).step (.viewReport s2)).timelineModal.shown = true ∧
      ((c.step (.showTimeline s1)).step (.viewReport s2)).reportModal.shown = true) := by
  refine ⟨?_, ?_, ?_, ?_, ?_, fun service formData console editLoading =>
      submitPatientEdit_frame service formData ⟨c, editLoading, console⟩,
    fun _ _ => ⟨rfl, rfl⟩⟩ <;>
    (intro h; cases a <;> first | rfl | exact absurd rfl h)

/-- Witness for C12: closing the report modal leaves an open timeline as it is. -/
theorem modal_actions_frame_witness :
    ((handleShowTimeline (.ofList [("_id", .str "s1")]) ControllerState.initial).step
        .closeReport).timelineModal =
      (handleShowTimeline (.ofList [("_id", .str "s1")]) ControllerState.initial).timelineModal :=
  (modal_actions_frame (handleShowTimeline (.ofList [("_id", .str "s1")]) ControllerState.initial)
    .closeReport).2.2.2.2.1 (by decide)

/-- C13: the controller starts with the five modals hidden and empty; each open handler
sets its own tuple to visible with the payload of its argument; each close callback resets
its tuple to hidden with `null` payload. So after any sequence of open and close events
from the initial state, a hidden modal holds no payload. -/
theorem modal_lifecycle :
    (ControllerState.initial.detailedView = ⟨false, .null⟩ ∧
     ControllerState.initial.reportModal = ⟨false, .null, .null⟩ ∧
     ControllerState.initial.studyNotes = ⟨false, .null⟩ ∧
     ControllerState.initial.patientEditModal = ⟨false, .null⟩ ∧
     ControllerState.initial.timelineModal = ⟨false, .null, .null⟩) ∧
    (∀ (s : Study) (c : ControllerState),
      (handleShowTimeline s c).timelineModal = ⟨true, s.get "_id", .obj s⟩ ∧
      (handleViewReport s c).reportModal = ⟨true, s.get "_id", .obj s⟩ ∧
      (handleViewStudy s c).detailedView = ⟨true, s.get "_id"⟩ ∧
      (handleShowDetailedView (s.get "_id") c).detailedView = ⟨true, s.get "_id"⟩ ∧
      (StudyRow.notesClick (some handleShowStudyNotes) s c).studyNotes = ⟨true, s.get "_id"⟩ ∧
      (handleEditPatient (.obj s) c).patientEditModal = ⟨true, .obj s⟩) ∧
    (∀ c : ControllerState,
      (closeDetailedView c).detailedView = ⟨false, .null⟩ ∧
      (closeReportModal c).reportModal = ⟨false, .null, .null⟩ ∧
      (closeStudyNotes c).studyNotes = ⟨false, .null⟩ ∧
      (closePatientEdit c).patientEditModal = ⟨false, .null⟩ ∧
      (closeTimelineModal c).timelineModal = ⟨false, .null, .null⟩) ∧
    (∀ actions : List ControllerAction,
      (ControllerState.initial.run actions).hiddenIsEmpty) := by
  refine ⟨⟨rfl, rfl, rfl, rfl, rfl⟩, fun _ _ => ⟨rfl, rfl, rfl, rfl, rfl, rfl⟩,
    fun _ => ⟨rfl, rfl, rfl, rfl, rfl⟩, ?_⟩
  intro actions
  apply hiddenIsEmpty_run
  simp [ControllerState.hiddenIsEmpty, ControllerState.initial]

/-! ## Callbacks and submission payload -/

/-- C14 counterexample: the patient-edit save with `onUpdateStudyDetails` `undefined` is not
silent: `handleSavePatientEdit` logs the `TypeError` of calling `undefined`. -/
theorem save_without_update_service_logs :
    (handleSavePatientEdit none (.str "payload") ⟨ControllerState.initial, false, []⟩).2.console
      = [⟨"Error in handleSavePatientEdit:",
          typeError "onUpdateStudyDetails is not a function"⟩] :=
  rfl

/-- C14 amended: the five row actions are guarded, so with an `undefined` callback they
change nothing, whatever the state is. The patient-edit save is not guarded but caught:
with `onUpdateStudyDetails` `undefined`, `handleSavePatientEdit` returns normally, leaves
the controller state and the loading flag as they are, and logs the `TypeError` of the
call. -/
theorem undefined_callbacks {σ : Type} (study : Study) (s : σ) (payload : JSValue)
    (w : TableWorld) :
    StudyRow.timelineClick (none : Option (Study → σ → σ)) study s = s ∧
    StudyRow.patientClick (none : Option (JSValue × Study → σ → σ)) study s = s ∧
    StudyRow.notesClick (none : Option (JSValue → σ → σ)) study s = s ∧
    StudyRow.viewClick (none : Option (Study → σ → σ)) study s = s ∧
    StudyRow.reportClick (none : Option (Study → σ → σ)) study s = s ∧
    (handleSavePatientEdit none payload w).1 = Completion.returned () ∧
    (handleSavePatientEdit none payload w).2.ctrl = w.ctrl ∧
    (handleSavePatientEdit none payload w).2.editLoading = w.editLoading ∧
    (handleSavePatientEdit none payload w).2.console =
      w.console ++ [⟨"Error in handleSavePatientEdit:",
        typeError "onUpdateStudyDetails is not a function"⟩] :=
  ⟨rfl, rfl, rfl, rfl, rfl, rfl, rfl, rfl, rfl⟩

/-- C15: submitting the draft `d` for the study `s` hands the update service one object:
the seven draft fields with the values of `d`, followed by `studyId` equal to `s._id`, and
nothing else. The service is applied to that object and to no other; the draft keeps its
seven keys. -/
theorem submit_forwards_draft_with_studyId (d : EditDraft) (study : JSProps)
    (ctrl : ControllerState) (console : List ConsoleEntry) :
    (d.toProps.set "studyId" (study.get "_id")).keys =
      ["patientName", "patientAge", "patientGender", "studyName", "referringPhysician",
       "accessionNumber", "clinicalHistory", "studyId"] ∧
    (d.toProps.set "studyId" (study.get "_id")).get "studyId" = study.get "_id" ∧
    ((d.toProps.set "studyId" (study.get "_id")).get "patientName" = d.patientName ∧
     (d.toProps.set "studyId" (study.get "_id")).get "patientAge" = d.patientAge ∧
     (d.toProps.set "studyId" (study.get "_id")).get "patientGender" = d.patientGender ∧
     (d.toProps.set "studyId" (study.get "_id")).get "studyName" = d.studyName ∧
     (d.toProps.set "studyId" (study.get "_id")).get "referringPhysician"
       = d.referringPhysician ∧
     (d.toProps.set "studyId" (study.get "_id")).get "accessionNumber" = d.accessionNumber ∧
     (d.toProps.set "studyId" (study.get "_id")).get "clinicalHistory" = d.clinicalHistory) ∧
    d.toProps.keys =
      ["patientName", "patientAge", "patientGender", "studyName", "referringPhysician",
       "accessionNumber", "clinicalHistory"] ∧
    (∀ service : UpdateService,
      submitPatientEdit (some service) d.toProps
          ⟨{ ctrl with patientEditModal := ⟨true, .obj study⟩ }, false, console⟩ =
        match service (.obj (d.toProps.set "studyId" (study.get "_id"))) with
        | .returned _ =>
          (.returned (), closePatientEditModal
            ⟨{ ctrl with patientEditModal := ⟨true, .obj study⟩ }, false, console⟩)
        | .thrown error =>
          (.returned (), closePatientEditModal
            ⟨{ ctrl with patientEditModal := ⟨true, .obj study⟩ }, false,
              console ++ [⟨"Error in handleSavePatientEdit:", error⟩]⟩)
        | .pending =>
          (.pending, ⟨{ ctrl with patientEditModal := ⟨true, .obj study⟩ }, true, console⟩)) ∧
    (submitPatientEdit (some (fun payload => Completion.thrown payload)) d.toProps
        ⟨{ ctrl with patientEditModal := ⟨true, .obj study⟩ }, false, console⟩).2.console =
      console ++ [⟨"Error in handleSavePatientEdit:",
        .obj (d.toProps.set "studyId" (study.get "_id"))⟩] := by
  refine ⟨rfl, rfl, ⟨rfl, rfl, rfl, rfl, rfl, rfl, rfl⟩, rfl, ?_, rfl⟩
  intro service
  simp only [submitPatientEdit, PatientEditModal.handleSubmit, JSValue.getProp,
    handleSavePatientEdit, callUpdate]
  cases service (JSValue.obj (d.toProps.set "studyId" (study.get "_id"))) <;> rfl

/-! ## Navigation -/

/-- C16: the reporting action navigates to `/online-reporting/<_id>?openOHIF=true` with
state `study` and `studyInstanceUID`, the latter being the record's own
`studyInstanceUID` when it has one and its `_id` when that field is absent; the viewer
action navigates to `/doctor/viewer/<_id>` with state `study` alone. -/
theorem navigation_targets (study : Study) :
    ((handleOHIFReporting study).2.path =
        "/online-reporting/" ++ (study.get "_id").toStr ++ "?openOHIF=true" ∧
     (handleOHIFReporting study).2.state.keys = ["study", "studyInstanceUID"] ∧
     (handleOHIFReporting study).2.state.get "study" = .obj study) ∧
    ((study.get "studyInstanceUID").truthy = true →
      (handleOHIFReporting study).2.state.get "studyInstanceUID"
        = study.get "studyInstanceUID") ∧
    (study.get "studyInstanceUID" = .undefined →
      (handleOHIFReporting study).2.state.get "studyInstanceUID" = study.get "_id") ∧
    ((handleViewOnlyClick study).path = "/doctor/viewer/" ++ (study.get "_id").toStr ∧
     (handleViewOnlyClick study).state.keys = ["study"] ∧
     (handleViewOnlyClick study).state.get "study" = .obj study) ∧
    (∀ id : String, study.get "_id" = .str id →
      (handleOHIFReporting study).2.path = "/online-reporting/" ++ id ++ "?openOHIF=true" ∧
      (handleViewOnlyClick study).path = "/doctor/viewer/" ++ id) := by
  refine ⟨⟨rfl, rfl, rfl⟩, ?_, ?_, ⟨rfl, rfl, rfl⟩, ?_⟩
  · intro h
    simp [handleOHIFReporting, JSProps.ofList, JSProps.get, JSValue.orElse, h]
  · intro h
    simp [handleOHIFReporting, JSProps.ofList, JSProps.get, JSValue.orElse, h,
      JSValue.truthy]
  · intro id h
    simp [handleOHIFReporting, handleViewOnlyClick, h, JSValue.toStr]

/-- Witness for C16: a study with `_id` `'abc'` and no imaging identifier is opened for
reporting with `studyInstanceUID` `'abc'`. -/
theorem navigation_targets_witness :
    (handleOHIFReporting (.ofList [("_id", .str "abc")])).2.state.get "studyInstanceUID"
      = JSProps.get (.ofList [("_id", .str "abc")]) "_id" :=
  (navigation_targets (.ofList [("_id", .str "abc")])).2.2.1 rfl

/-! ## Formatting a valid date -/

/-- The day of the year computed from the day of the 400-year era is between 0 and 365. -/
theorem dayOfYear_bounds (doe e : Int) (h0 : 0 ≤ doe) (h1 : doe ≤ 146096)
    (he : e = doe / 1460) :
    0 ≤ doe - (365 * ((doe - e + doe / 36524 - doe / 146096) / 365)
        + ((doe - e + doe / 36524 - doe / 146096) / 365) / 4
        - ((doe - e + doe / 36524 - doe / 146096) / 365) / 100) ∧
    doe - (365 * ((doe - e + doe / 36524 - doe / 146096) / 365)
        + ((doe - e + doe / 36524 - doe / 146096) / 365) / 4
        - ((doe - e + doe / 36524 - doe / 146096) / 365) / 100) ≤ 365 := by
  have hlo : 0 ≤ e := by omega
  have hhi : e ≤ 100 := by omega
  have hf : doe / 36524 = 0 ∨ doe / 36524 = 1 ∨ doe / 36524 = 2 ∨ doe / 36524 = 3 ∨
      doe / 36524 = 4 := by omega
  have hg : doe / 146096 = 0 ∨ doe / 146096 = 1 := by omega
  interval_cases e <;> omega

/-- Month index and day of month computed from a day of the year are in range. -/
theorem monthDay_bounds (doy : Int) (h0 : 0 ≤ doy) (h1 : doy ≤ 365) :
    1 ≤ doy - (153 * ((5 * doy + 2) / 153) + 2) / 5 + 1 ∧
    doy - (153 * ((5 * doy + 2) / 153) + 2) / 5 + 1 ≤ 31 ∧
    0 ≤ (5 * doy + 2) / 153 ∧ (5 * doy + 2) / 153 ≤ 11 := by
  omega

/-- The calendar date of any day number has a day in 1-31 and a month in 1-12. -/
theorem civilFromDays_bounds (days : Int) :
    1 ≤ (civilFromDays days).day ∧ (civilFromDays days).day ≤ 31 ∧
    1 ≤ (civilFromDays days).month ∧ (civilFromDays days).month ≤ 12 := by
  have hdoe : 0 ≤ days + 719468 - (days + 719468) / 146097 * 146097 ∧
      days + 719468 - (days + 719468) / 146097 * 146097 ≤ 146096 := by omega
  have hdoy := dayOfYear_bounds _ _ hdoe.1 hdoe.2 rfl
  have hmd := monthDay_bounds _ hdoy.1 hdoy.2
  refine ⟨hmd.1, hmd.2.1, ?_, ?_⟩
  · show 1 ≤ (if _ < (10 : Int) then _ else _)
    split <;> omega
  · show (if _ < (10 : Int) then _ else _) ≤ (12 : Int)
    split <;> omega

/-- An integer up to `2^53` in magnitude is printed with all its digits. -/
theorem numberToString_small (n : Int) (h : n.natAbs ≤ 9007199254740992) :
    numberToString n = toString n := by
  unfold numberToString
  rw [if_pos h]

/-- The time value of a `Date` is within the range of `Date`, but for the two constants of
`true` and `null`. -/
theorem newDate_bound (host : DateHost) (v : JSValue) (t : Int)
    (h : newDate host v = some t) : -8640000000000000 ≤ t ∧ t ≤ 8640000000000000 := by
  have hclip : ∀ x : Int, timeClip x = some t →
      -8640000000000000 ≤ t ∧ t ≤ 8640000000000000 := by
    intro x hx
    unfold timeClip at hx
    split at hx
    · cases hx
      omega
    · cases hx
  have hbind : ∀ o : Option Int, o.bind timeClip = some t →
      -8640000000000000 ≤ t ∧ t ≤ 8640000000000000 := by
    intro o ho
    cases o with
    | none => cases ho
    | some x => exact hclip x ho
  cases v with
  | undefined => cases h
  | null => cases h; omega
  | bool b => cases h; cases b <;> simp
  | nan => cases h
  | num n => exact hclip n h
  | str s => exact hbind _ h
  | obj fields => exact hbind _ h
  | arr items => exact hbind _ h

/-- The zone adjustment used by `localTime` is less than a day. -/
theorem clampOffset_bound (offset : Int) :
    -86400000 < clampOffset offset ∧ clampOffset offset < 86400000 := by
  unfold clampOffset
  split
  · omega
  · split <;> omega

/-- The year of a day number within a hundred million days of the epoch has at most six
digits. -/
theorem civilFromDays_year_bound (days : Int) (h1 : -100001001 ≤ days)
    (h2 : days ≤ 100001001) :
    -300000 ≤ (civilFromDays days).year ∧ (civilFromDays days).year ≤ 300000 := by
  have hdoe : 0 ≤ days + 719468 - (days + 719468) / 146097 * 146097 ∧
      days + 719468 - (days + 719468) / 146097 * 146097 ≤ 146096 := by omega
  have hera : -700 ≤ (days + 719468) / 146097 ∧ (days + 719468) / 146097 ≤ 700 := by omega
  have hyoe : ∀ doe : Int, 0 ≤ doe → doe ≤ 146096 →
      0 ≤ (doe - doe / 1460 + doe / 36524 - doe / 146096) / 365 ∧
      (doe - doe / 1460 + doe / 36524 - doe / 146096) / 365 ≤ 400 := by
    intro doe h0 h3
    omega
  have hy := hyoe _ hdoe.1 hdoe.2
  constructor
  · show -300000 ≤ (if _ ≤ (2 : Int) then _ else _)
    split <;> omega
  · show (if _ ≤ (2 : Int) then _ else _) ≤ (300000 : Int)
    split <;> omega

/-- The local year of a valid `Date` is printed with all its digits. -/
theorem year_toStr (host : DateHost) (v : JSValue) (t : Int) (h : newDate host v = some t) :
    (JSValue.num (civilFromDays (localTime host t / msPerDay)).year).toStr =
      toString (civilFromDays (localTime host t / msPerDay)).year := by
  obtain ⟨ht1, ht2⟩ := newDate_bound host v t h
  obtain ⟨hc1, hc2⟩ := clampOffset_bound (host.localTZA t)
  have hdays : -100001001 ≤ localTime host t / msPerDay ∧
      localTime host t / msPerDay ≤ 100001001 := by
    unfold localTime msPerDay
    omega
  obtain ⟨hy1, hy2⟩ := civilFromDays_year_bound _ hdays.1 hdays.2
  show numberToString _ = _
  apply numberToString_small
  omega

/-- A number from 0 to 99, printed and padded to width two, is its two digits. -/
theorem padStart_twoDigits (i : Int) (h0 : 0 ≤ i) (h1 : i ≤ 99) :
    padStart (JSValue.num i).toStr 2 "0" = twoDigits i.toNat := by
  obtain ⟨n, rfl⟩ := Int.eq_ofNat_of_zero_le h0
  have hn : n < 100 := by omega
  interval_cases n <;> rfl

/-- A two-digit field has length two. -/
theorem twoDigits_length (n : Nat) : (twoDigits n).length = 2 := rfl

/-- Both formatters on a truthy input whose `Date` holds the valid time value `t`. -/
theorem format_of_valid_time (host : DateHost) (v : JSValue) (t : Int)
    (hv : v.truthy = true) (hd : newDate host v = some t) :
    formatDate host v =
      twoDigits (civilFromDays (localTime host t / msPerDay)).day.toNat ++ "/" ++
      twoDigits (civilFromDays (localTime host t / msPerDay)).month.toNat ++ "/" ++
      toString (civilFromDays (localTime host t / msPerDay)).year ∧
    formatTime host v =
      twoDigits (localTime host t / 3600000 % 24).toNat ++ ":" ++
      twoDigits (localTime host t / 60000 % 60).toNat ++ ":" ++
      twoDigits (localTime host t / 1000 % 60).toNat := by
  obtain ⟨hd1, hd2, hm1, hm2⟩ := civilFromDays_bounds (localTime host t / msPerDay)
  constructor
  · have hday := padStart_twoDigits (civilFromDays (localTime host t / msPerDay)).day
      (by omega) (by omega)
    have hmonth := padStart_twoDigits
      ((civilFromDays (localTime host t / msPerDay)).month - 1 + 1) (by omega) (by omega)
    simp only [formatDate, hv, hd, getDate, getMonth, getFullYear, JSValue.plus]
    simp only [Bool.not_true, Bool.false_eq_true, if_false, bind, Except.bind, pure,
      Except.pure]
    rw [hday, hmonth, year_toStr host v t hd]
    simp
  · have hh := padStart_twoDigits (localTime host t / 3600000 % 24) (by omega) (by omega)
    have hmin := padStart_twoDigits (localTime host t / 60000 % 60) (by omega) (by omega)
    have hsec := padStart_twoDigits (localTime host t / 1000 % 60) (by omega) (by omega)
    simp only [formatTime, hv, hd, getHours, getMinutes, getSeconds]
    simp only [Bool.not_true, Bool.false_eq_true, if_false, bind, Except.bind, pure,
      Except.pure]
    rw [hh, hmin, hsec]

/-- C17: for a non-empty string that the host parses to a time value within the range of
`Date`, `formatDate` returns the local day of month (1-31) and month number (1-12), each
as exactly two digits, then the local year in decimal, separated by `/`; `formatTime`
returns the local hour (0-23), minute and second (0-59), each as exactly two digits,
separated by `:`, a string of length 8. -/
theorem formatDate_formatTime_valid (host : DateHost) (s : String) (t : Int)
    (hs : s ≠ "") (hp : host.parse s = some t) (hclip : t.natAbs ≤ 8640000000000000) :
    (1 ≤ (civilFromDays (localTime host t / msPerDay)).day ∧
     (civilFromDays (localTime host t / msPerDay)).day ≤ 31 ∧
     1 ≤ (civilFromDays (localTime host t / msPerDay)).month ∧
     (civilFromDays (localTime host t / msPerDay)).month ≤ 12) ∧
    formatDate host (.str s) =
      twoDigits (civilFromDays (localTime host t / msPerDay)).day.toNat ++ "/" ++
      twoDigits (civilFromDays (localTime host t / msPerDay)).month.toNat ++ "/" ++
      toString (civilFromDays (localTime host t / msPerDay)).year ∧
    (0 ≤ localTime host t / 3600000 % 24 ∧ localTime host t / 3600000 % 24 ≤ 23 ∧
     0 ≤ localTime host t / 60000 % 60 ∧ localTime host t / 60000 % 60 ≤ 59 ∧
     0 ≤ localTime host t / 1000 % 60 ∧ localTime host t / 1000 % 60 ≤ 59) ∧
    formatTime host (.str s) =
      twoDigits (localTime host t / 3600000 % 24).toNat ++ ":" ++
      twoDigits (localTime host t / 60000 % 60).toNat ++ ":" ++
      twoDigits (localTime host t / 1000 % 60).toNat ∧
    (formatTime host (.str s)).length = 8 := by
  have hv : (JSValue.str s).truthy = true := by simp [JSValue.truthy, hs]
  have hd : newDate host (.str s) = some t := by
    simp [newDate, hp, timeClip, hclip]
  obtain ⟨hdate, htime⟩ := format_of_valid_time host (.str s) t hv hd
  refine ⟨civilFromDays_bounds _, hdate, by omega, htime, ?_⟩
  rw [htime]
  have hcolon : ":".length = 1 := rfl
  simp only [String.length_append, twoDigits_length, hcolon]

/-- Witness for C17: on a host five and a half hours east of UTC, the timestamp
`2024-03-05T07:08:09Z` is shown as `05/03/2024` and `12:38:09`. -/
theorem formatDate_formatTime_valid_witness :
    formatDate (isoHost 330) (.str "2024-03-05T07:08:09Z") = "05/03/2024" ∧
    formatTime (isoHost 330) (.str "2024-03-05T07:08:09Z") = "12:38:09" :=
  ⟨(formatDate_formatTime_valid (isoHost 330) "2024-03-05T07:08:09Z" 1709622489000
      (by decide) (by decide) (by decide)).2.1,
   (formatDate_formatTime_valid (isoHost 330) "2024-03-05T07:08:09Z" 1709622489000
      (by decide) (by decide) (by decide)).2.2.2.1⟩

/-! ## Row classes -/

/-- The urgency flag holds exactly for the priorities `URGENT` and `EMERGENCY`. -/
theorem isUrgent_iff (study : Study) :
    isUrgent study = true ↔
      study.get "priority" = .str "URGENT" ∨ study.get "priority" = .str "EMERGENCY" := by
  simp [isUrgent, strictEqStr_iff]

/-- The rejection flag holds exactly for the status `report_rejected`. -/
theorem isRejected_iff (study : Study) :
    isRejected study = true ↔ study.get "workflowStatus" = .str "report_rejected" := by
  simp [isRejected, strictEqStr_iff]

/-- The class string of a row is one of eight strings, fixed by the two flags and the
parity of the index; on each of them the accents and backgrounds are as stated. -/
theorem rowClasses_flags (study : Study) (index : Nat) :
    classCarries (rowClasses study index) "border-l-4 border-l-rose-500" = isUrgent study ∧
    classCarries (rowClasses study index) "border-l-4 border-l-rose-600" = isRejected study ∧
    charsStartWith (rowClasses study index).data (rowBackground index ++ " ").data = true ∧
    classCarries (rowClasses study index) "bg-white" = decide (index % 2 = 0) ∧
    classCarries (rowClasses study index) "bg-slate-50/50" = decide (index % 2 = 1) := by
  unfold rowClasses rowBackground
  rcases Nat.mod_two_eq_zero_or_one index with hp | hp <;>
    cases isUrgent study <;> cases isRejected study <;> simp only [hp] <;> decide

/-- C18: the class string of a row carries the urgency accent `border-l-4
border-l-rose-500` exactly when the priority is `URGENT` or `EMERGENCY`, carries the
rejection accent `border-l-4 border-l-rose-600` exactly when the workflow status is
`report_rejected`, and begins with the background `bg-white` on an even index and
`bg-slate-50/50` on an odd one (and carries only that one of the two). -/
theorem rowClasses_accents (study : Study) (index : Nat) :
    (classCarries (rowClasses study index) "border-l-4 border-l-rose-500" = true ↔
      study.get "priority" = .str "URGENT" ∨ study.get "priority" = .str "EMERGENCY") ∧
    (classCarries (rowClasses study index) "border-l-4 border-l-rose-600" = true ↔
      study.get "workflowStatus" = .str "report_rejected") ∧
    (index % 2 = 0 →
      charsStartWith (rowClasses study index).data "bg-white ".data = true ∧
      classCarries (rowClasses study index) "bg-slate-50/50" = false) ∧
    (index % 2 = 1 →
      charsStartWith (rowClasses study index).data "bg-slate-50/50 ".data = true ∧
      classCarries (rowClasses study index) "bg-white" = false) := by
  obtain ⟨hu, hr, hb, hw, hs⟩ := rowClasses_flags study index
  refine ⟨?_, ?_, ?_, ?_⟩
  · rw [hu]
    exact isUrgent_iff study
  · rw [hr]
    exact isRejected_iff study
  · intro hp
    refine ⟨?_, ?_⟩
    · simpa [rowBackground, hp] using hb
    · rw [hs]
      simp [hp]
  · intro hp
    refine ⟨?_, ?_⟩
    · simpa [rowBackground, hp] using hb
    · rw [hw]
      simp [hp]

/-- Witness for C18: the third row (index 2) of an urgent, rejected study starts with
`bg-white` and does not carry the odd-row background. -/
theorem rowClasses_accents_witness :
    charsStartWith
        (rowClasses (.ofList [("priority", .str "URGENT"),
          ("workflowStatus", .str "report_rejected")]) 2).data "bg-white ".data = true ∧
    classCarries
        (rowClasses (.ofList [("priority", .str "URGENT"),
          ("workflowStatus", .str "report_rejected")]) 2) "bg-slate-50/50" = false :=
  (rowClasses_accents (.ofList [("priority", .str "URGENT"),
    ("workflowStatus", .str "report_rejected")]) 2).2.2.1 (by decide)

/-! ## Download popover -/

/-- C19: the download toggle flips the visibility, so two toggles restore it: from closed
they return to closed, and a toggle while open closes. The close callback always gives
closed and changes nothing when the popover is already closed. Each toggle stores the
position of the trigger: `top = rect.bottom + scrollY`, `left = rect.left + scrollX`,
`width = rect.width`. -/
theorem download_toggle_involution (rect1 rect2 : Rect) (window1 window2 : Scroll)
    (s : RowState) :
    (handleDownloadClick rect2 window2 (handleDownloadClick rect1 window1 s)).showDownloadOptions
      = s.showDownloadOptions ∧
    (s.showDownloadOptions = false →
      (handleDownloadClick rect1 window1 s).showDownloadOptions = true ∧
      (handleDownloadClick rect2 window2
        (handleDownloadClick rect1 window1 s)).showDownloadOptions = false) ∧
    (s.showDownloadOptions = true →
      (handleDownloadClick rect1 window1 s).showDownloadOptions = false) ∧
    (closeDownloadOptions s).showDownloadOptions = false ∧
    closeDownloadOptions (closeDownloadOptions s) = closeDownloadOptions s ∧
    (s.showDownloadOptions = false → closeDownloadOptions s = s) ∧
    (handleDownloadClick rect1 window1 s).downloadPosition =
      some ⟨rect1.bottom + window1.scrollY, rect1.left + window1.scrollX, rect1.width⟩ ∧
    (handleDownloadClick rect2 window2 (handleDownloadClick rect1 window1 s)).downloadPosition =
      some ⟨rect2.bottom + window2.scrollY, rect2.left + window2.scrollX, rect2.width⟩ := by
  refine ⟨?_, ?_, ?_, rfl, rfl, ?_, rfl, rfl⟩
  · simp [handleDownloadClick]
  · intro h
    simp [handleDownloadClick, h]
  · intro h
    simp [handleDownloadClick, h]
  · intro h
    cases s
    simp only [closeDownloadOptions] at h ⊢
    subst h
    rfl

/-- Witness for C19: from the initial row state, two clicks leave the popover closed, with
the position of the second click stored. -/
theorem download_toggle_involution_witness :
    (handleDownloadClick ⟨140, 30, 24⟩ ⟨0, 100⟩ RowState.initial).showDownloadOptions = true ∧
    (handleDownloadClick ⟨150, 30, 24⟩ ⟨0, 90⟩
      (handleDownloadClick ⟨140, 30, 24⟩ ⟨0, 100⟩ RowState.initial)).showDownloadOptions
        = false :=
  (download_toggle_involution ⟨140, 30, 24⟩ ⟨150, 30, 24⟩ ⟨0, 100⟩ ⟨0, 90⟩
    RowState.initial).2.1 rfl

/-! ## Clipboard -/

/-- C20 (as the code behaves): when the clipboard write returns a promise, `copyToClipboard`
returns normally and the notifications follow the outcome: one success toast `<label>
copied to clipboard!` at `bottom-right` for 2000 ms when the promise is fulfilled, one
error toast `Failed to copy to clipboard` when it is rejected, none while it is pending.
But there is no `try`: when evaluating `navigator.clipboard.writeText(text)` throws (as it
does with a `TypeError` when `navigator.clipboard` is `undefined`), or when it returns a
value that is no promise, the function throws synchronously and no notification is made. -/
theorem copyToClipboard_notifications (writeText : JSValue → WriteOutcome)
    (text label : JSValue) :
    (writeText text = .fulfilled →
      copyToClipboard writeText text label =
        (Completion.returned (),
          [.success
            ((match label with
              | .undefined => "ID"
              | v => v.toStr) ++ " copied to clipboard!")
            "bottom-right" 2000])) ∧
    (∀ reason : JSValue, writeText text = .rejected reason →
      copyToClipboard writeText text label =
        (Completion.returned (), [.error "Failed to copy to clipboard"])) ∧
    (writeText text = .pending →
      copyToClipboard writeText text label = (Completion.returned (), [])) ∧
    (∀ error : JSValue, writeText text = .thrown error →
      copyToClipboard writeText text label = (Completion.thrown error, [])) ∧
    (∀ value : JSValue, writeText text = .nonPromise value →
      ∃ error : JSValue,
        copyToClipboard writeText text label = (Completion.thrown error, [])) ∧
    (∀ labelText : String, writeText text = .fulfilled →
      (copyToClipboard writeText text (.str labelText)).2 =
        [.success (labelText ++ " copied to clipboard!") "bottom-right" 2000]) := by
  refine ⟨?_, ?_, ?_, ?_, ?_, ?_⟩
  · intro h
    unfold copyToClipboard
    rw [h]
    cases label <;> rfl
  · intro reason h
    unfold copyToClipboard
    rw [h]
  · intro h
    unfold copyToClipboard
    rw [h]
  · intro error h
    unfold copyToClipboard
    rw [h]
  · intro value h
    unfold copyToClipboard
    rw [h]
    simp only
    cases value.getProp "then" with
    | error e => exact ⟨e, rfl⟩
    | ok v => exact ⟨_, rfl⟩
  · intro labelText h
    unfold copyToClipboard
    rw [h]
    rfl

/-- Witness for C20: on a page where `navigator.clipboard` is `undefined`, evaluating
`navigator.clipboard.writeText(text)` throws a `TypeError`; `copyToClipboard` then throws
it synchronously and shows no notification. -/
theorem copyToClipboard_without_clipboard_throws :
    copyToClipboard
        (fun _ => .thrown (typeError "Cannot read properties of undefined (reading writeText)"))
        (.str "BP-0001") (.str "BP ID") =
      (Completion.thrown (typeError "Cannot read properties of undefined (reading writeText)"),
        []) :=
  (copyToClipboard_notifications
    (fun _ => .thrown (typeError "Cannot read properties of undefined (reading writeText)"))
    (.str "BP-0001") (.str "BP ID")).2.2.2.1
    (typeError "Cannot read properties of undefined (reading writeText)") rfl

/-! ## Reachability of the patient-edit modal -/

/-- No event of the rendered table changes the patient-edit tuple, except its own close
callback, which resets it. -/
theorem patientEdit_step {ε : Type} (onPatienIdClick : Option (JSValue × Study → ε → ε))
    (writeText : JSValue → WriteOutcome) (p : Page ε) (event : TableEvent) :
    (Page.step onPatienIdClick writeText p event).ctrl.patientEditModal = p.ctrl.patientEditModal ∨
    (Page.step onPatienIdClick writeText p event).ctrl.patientEditModal = ⟨false, .null⟩ := by
  cases event with
  | row study index event =>
    left
    cases event <;> first
      | rfl
      | (cases onPatienIdClick <;> rfl)
  | closeDetailedView => exact Or.inl rfl
  | closeReport => exact Or.inl rfl
  | closeStudyNotes => exact Or.inl rfl
  | closePatientEdit => exact Or.inr rfl
  | closeTimeline => exact Or.inl rfl

/-- A hidden and empty patient-edit tuple stays so along any sequence of events. -/
theorem patientEdit_run {ε : Type} (onPatienIdClick : Option (JSValue × Study → ε → ε))
    (writeText : JSValue → WriteOutcome) (events : List TableEvent) (p : Page ε)
    (h : p.ctrl.patientEditModal = ⟨false, .null⟩) :
    (Page.run onPatienIdClick writeText p events).ctrl.patientEditModal = ⟨false, .null⟩ := by
  induction events generalizing p with
  | nil => exact h
  | cons event rest ih =>
    apply ih
    rcases patientEdit_step onPatienIdClick writeText p event with hs | hs
    · rw [hs, h]
    · exact hs

/-- C21: `StudyRow` never calls `onEditPatient` (what a row does is the same whatever that
prop is), so after any sequence of row events (copy, timeline, patient click, viewer,
download toggle and close, reporting, attachments, notes, view, report) and modal close
callbacks from the first render, the patient-edit modal is hidden, holds no study and is
not mounted. -/
theorem patientEdit_unreachable {ε : Type} (onPatienIdClick : Option (JSValue × Study → ε → ε))
    (writeText : JSValue → WriteOutcome) (outside : ε) (events : List TableEvent) :
    (∀ (props : StudyRowProps ε) (onEditPatient : Option (JSValue → Page ε → Page ε))
        (study : Study) (index : Nat) (event : RowEvent) (p : Page ε),
      StudyRow.handle { props with onEditPatient := onEditPatient } writeText study index event p
        = StudyRow.handle props writeText study index event p) ∧
    (Page.run onPatienIdClick writeText (Page.initial outside) events).ctrl.patientEditModal.shown
      = false ∧
    (Page.run onPatienIdClick writeText (Page.initial outside) events).ctrl.patientEditModal.study
      = .null ∧
    ModalKind.patientEdit ∉
      mountedModals (Page.run onPatienIdClick writeText (Page.initial outside) events).ctrl := by
  have h := patientEdit_run onPatienIdClick writeText events (Page.initial outside) rfl
  refine ⟨?_, ?_, ?_, ?_⟩
  · intro props onEditPatient study index event p
    cases event <;> rfl
  · rw [h]
  · rw [h]
  · simp only [mountedModals, h]
    intro hm
    simp only [List.mem_append] at hm
    rcases hm with (((hm | hm) | hm) | hm) | hm
    · split at hm <;> simp at hm
    · split at hm <;> simp at hm
    · split at hm <;> simp at hm
    · simp at hm
    · split at hm <;> simp at hm

/-! ## Login submission -/

/-- Reading `message` from a caught value succeeds unless the value is `null` or
`undefined`. -/
theorem getProp_ok_of_not_nullish (v : JSValue) (key : String)
    (h1 : v ≠ .undefined) (h2 : v ≠ .null) : ∃ m, v.getProp key = .ok m := by
  cases v with
  | undefined => exact absurd rfl h1
  | null => exact absurd rfl h2
  | bool b => exact ⟨_, rfl⟩
  | nan => exact ⟨_, rfl⟩
  | num n => exact ⟨_, rfl⟩
  | str s => exact ⟨_, rfl⟩
  | obj fields => exact ⟨_, rfl⟩
  | arr items => exact ⟨_, rfl⟩

/-- A value thrown by a property read is a `TypeError` object, never `null` or `undefined`. -/
theorem getProp_error_not_nullish (v : JSValue) (key : String) (e : JSValue)
    (h : v.getProp key = .error e) : e ≠ .undefined ∧ e ≠ .null := by
  cases v <;> simp [JSValue.getProp, typeError] at h <;> subst h <;> simp

/-- What the `try` block does with the `login` function and what it can throw. -/
theorem tryBody_facts (login : LoginService) (locationState dashboardRoute : JSValue)
    (formData : LoginForm) (w : LoginWorld) :
    (jsTrim formData.email ≠ "" ∧ jsTrim formData.password ≠ "" →
      (LoginPage.tryBody login locationState dashboardRoute formData w).2.loginCalls =
        w.loginCalls ++ [(jsTrim formData.email, formData.password)]) ∧
    (jsTrim formData.email = "" ∨ jsTrim formData.password = "" →
      LoginPage.tryBody login locationState dashboardRoute formData w =
        (.thrown (newError "Please provide both email and password"), w)) ∧
    (LoginPage.tryBody login locationState dashboardRoute formData w).2.isLoading
      = w.isLoading ∧
    (∀ e, (LoginPage.tryBody login locationState dashboardRoute formData w).1 = .thrown e →
      (e = .undefined ∨ e = .null) →
      login (jsTrim formData.email) formData.password = .thrown e) := by
  by_cases hblank : jsTrim formData.email = "" ∨ jsTrim formData.password = ""
  · have hb : LoginPage.tryBody login locationState dashboardRoute formData w =
        (.thrown (newError "Please provide both email and password"), w) := by
      unfold LoginPage.tryBody
      rcases hblank with h | h <;> simp [h, JSValue.truthy]
    refine ⟨?_, fun _ => hb, ?_, ?_⟩
    · intro h
      rcases hblank with hb2 | hb2
      · exact absurd hb2 h.1
      · exact absurd hb2 h.2
    · rw [hb]
    · intro e he hn
      rw [hb] at he
      simp only [Completion.thrown.injEq] at he
      subst he
      rcases hn with hn | hn <;> simp [newError] at hn
  · have he : jsTrim formData.email ≠ "" := fun h => hblank (Or.inl h)
    have hp : jsTrim formData.password ≠ "" := fun h => hblank (Or.inr h)
    have hcond : (!(JSValue.str (jsTrim formData.email)).truthy ||
        !(JSValue.str (jsTrim formData.password)).truthy) = false := by
      simp [JSValue.truthy, he, hp]
    refine ⟨?_, fun h => absurd h hblank, ?_, ?_⟩
    · intro _
      unfold LoginPage.tryBody
      simp only [hcond, Bool.false_eq_true, if_false]
      cases login (jsTrim formData.email) formData.password with
      | pending => rfl
      | thrown e => rfl
      | returned result =>
        simp only
        split <;> first | rfl | (split <;> rfl)
    · unfold LoginPage.tryBody
      simp only [hcond, Bool.false_eq_true, if_false]
      cases login (jsTrim formData.email) formData.password with
      | pending => rfl
      | thrown e => rfl
      | returned result =>
        simp only
        split <;> first | rfl | (split <;> rfl)
    · intro e hthrown hn
      have hnot : ∀ (v : JSValue) (key : String), v.getProp key ≠ .error e := by
        intro v key herr
        have := getProp_error_not_nullish v key e herr
        rcases hn with hn | hn
        · exact this.1 hn
        · exact this.2 hn
      unfold LoginPage.tryBody at hthrown
      simp only [hcond, Bool.false_eq_true, if_false] at hthrown
      cases hl : login (jsTrim formData.email) formData.password with
      | pending => rw [hl] at hthrown; simp at hthrown
      | thrown e2 =>
        rw [hl] at hthrown
        simp only [Completion.thrown.injEq] at hthrown
        rw [hthrown]
      | returned result =>
        rw [hl] at hthrown
        simp only at hthrown
        exfalso
        split at hthrown
        · rename_i error _ herr
          simp only [Completion.thrown.injEq] at hthrown
          subst hthrown
          exact hnot _ _ herr
        · rename_i error _ herr
          simp only [Completion.thrown.injEq] at hthrown
          subst hthrown
          exact hnot _ _ herr
        · split at hthrown
          · rename_i error _ herr
            simp only [Completion.thrown.injEq] at hthrown
            subst hthrown
            exact hnot _ _ herr
          · rename_i error _ herr
            simp only [Completion.thrown.injEq] at hthrown
            subst hthrown
            exact hnot _ _ herr
          · simp at hthrown

/-- C22 counterexample: when `login` rejects with `undefined`, the `catch` block throws a
`TypeError` on `err.message`, so the promise of `handleSubmit` is rejected: an exception
escapes (after `finally` has cleared `isLoading`, and with `login` called once). -/
theorem login_rejecting_undefined_escapes :
    (LoginPage.handleSubmit (fun _ _ => Completion.thrown .undefined) .null (.str "/dashboard")
        ⟨"a@b.c", "pw"⟩ ⟨false, [], [], []⟩).1
      = Completion.thrown (typeError "Cannot read properties of undefined (reading message)") ∧
    (LoginPage.handleSubmit (fun _ _ => Completion.thrown .undefined) .null (.str "/dashboard")
        ⟨"a@b.c", "pw"⟩ ⟨false, [], [], []⟩).2.isLoading = false ∧
    (LoginPage.handleSubmit (fun _ _ => Completion.thrown .undefined) .null (.str "/dashboard")
        ⟨"a@b.c", "pw"⟩ ⟨false, [], [], []⟩).2.loginCalls = [("a@b.c", "pw")] :=
  ⟨rfl, rfl, rfl⟩

/-- C22 amended: `handleSubmit` calls `login` exactly when the email and the password are
both non-blank after trimming, with the trimmed email and the password as typed; when
either is blank, `login` is not called, nothing is navigated and the call returns; whenever
`handleSubmit` completes, `isLoading` is false; and no exception escapes provided `login`
does not reject with `null` or `undefined`. -/
theorem login_submit_contract (login : LoginService) (locationState dashboardRoute : JSValue)
    (formData : LoginForm) (w : LoginWorld) :
    (jsTrim formData.email ≠ "" ∧ jsTrim formData.password ≠ "" →
      (LoginPage.handleSubmit login locationState dashboardRoute formData w).2.loginCalls =
        w.loginCalls ++ [(jsTrim formData.email, formData.password)]) ∧
    (jsTrim formData.email = "" ∨ jsTrim formData.password = "" →
      (LoginPage.handleSubmit login locationState dashboardRoute formData w).1
        = Completion.returned () ∧
      (LoginPage.handleSubmit login locationState dashboardRoute formData w).2.loginCalls
        = w.loginCalls ∧
      (LoginPage.handleSubmit login locationState dashboardRoute formData w).2.navigations
        = w.navigations ∧
      (LoginPage.handleSubmit login locationState dashboardRoute formData w).2.isLoading
        = false) ∧
    ((LoginPage.handleSubmit login locationState dashboardRoute formData w).1
        ≠ Completion.pending →
      (LoginPage.handleSubmit login locationState dashboardRoute formData w).2.isLoading
        = false) ∧
    ((∀ e, login (jsTrim formData.email) formData.password = .thrown e →
        e ≠ .undefined ∧ e ≠ .null) →
      ∀ e, (LoginPage.handleSubmit login locationState dashboardRoute formData w).1
        ≠ Completion.thrown e) := by
  obtain ⟨hcalls, hblank, _, hnullish⟩ :=
    tryBody_facts login locationState dashboardRoute formData { w with isLoading := true }
  refine ⟨?_, ?_, ?_, ?_⟩
  · intro h
    have hc := hcalls h
    unfold LoginPage.handleSubmit
    revert hc
    generalize LoginPage.tryBody login locationState dashboardRoute formData
      { w with isLoading := true } = r
    intro hc
    obtain ⟨c, w1⟩ := r
    cases c with
    | returned v => exact hc
    | pending => exact hc
    | thrown err =>
      simp only
      cases err.getProp "message" <;> exact hc
  · intro h
    unfold LoginPage.handleSubmit
    rw [hblank h]
    exact ⟨rfl, rfl, rfl, rfl⟩
  · unfold LoginPage.handleSubmit
    generalize LoginPage.tryBody login locationState dashboardRoute formData
      { w with isLoading := true } = r
    obtain ⟨c, w1⟩ := r
    cases c with
    | returned v => intro _; rfl
    | pending => intro h; exact absurd rfl h
    | thrown err =>
      simp only
      cases err.getProp "message" <;> (intro _; rfl)
  · intro hsafe e
    unfold LoginPage.handleSubmit
    revert hnullish
    generalize LoginPage.tryBody login locationState dashboardRoute formData
      { w with isLoading := true } = r
    intro hnullish
    obtain ⟨c, w1⟩ := r
    cases c with
    | returned v => simp
    | pending => simp
    | thrown err =>
      simp only
      by_cases hn : err = .undefined ∨ err = .null
      · have hl := hnullish err rfl hn
        have := hsafe err hl
        rcases hn with hn | hn
        · exact absurd hn this.1
        · exact absurd hn this.2
      · have h1 : err ≠ .undefined := fun h => hn (Or.inl h)
        have h2 : err ≠ .null := fun h => hn (Or.inr h)
        obtain ⟨m, hm⟩ := getProp_ok_of_not_nullish err "message" h1 h2
        rw [hm]
        simp

/-- Witness for C22 amended: with email `' a@b.c '` and password `' pw '`, a `login` that
rejects with an `Error` is called once with `'a@b.c'` and `' pw '`. -/
theorem login_submit_contract_witness :
    (LoginPage.handleSubmit (fun _ _ => Completion.thrown (newError "Invalid credentials")) .null
        (.str "/dashboard") ⟨" a@b.c ", " pw "⟩ ⟨false, [], [], []⟩).2.loginCalls =
      ([] : List (String × String)) ++ [(jsTrim " a@b.c ", " pw ")] :=
  (login_submit_contract (fun _ _ => Completion.thrown (newError "Invalid credentials")) .null
    (.str "/dashboard") ⟨" a@b.c ", " pw "⟩ ⟨false, [], [], []⟩).1 ⟨by decide, by decide⟩

end Worklist
